import Mathlib

/-!
Verification of the contact-information moderation engine
(`src/backend/pii/pii.py`) against its natural-language specification.

The Python classes are shallowly embedded as follows:
* pure methods become Lean functions;
* the severity table (a Python dict) becomes an association list with the
  same `.get(key, 10)` default semantics;
* Python `int` scores are `Nat` (all summands are non-negative);
* the mutable `RateLimiter` becomes explicit state passing, with
  `datetime.now()` supplied as an explicit integer timestamp (minutes);
* the compiled regular-expression battery of `PatternDetector` is modelled
  by passing the outcome of every `re.search` / `re.finditer` call as an
  explicit input record (`DetectInputs`); the violation-list assembly logic
  of `detect_all_patterns` is embedded exactly.
-/

namespace ContactModerationSystem

/-- `ContactModerationSystem.SEVERITY_WEIGHTS` from pii.py (lines 959-975),
as an ordered association list. -/
def SEVERITY_WEIGHTS : List (String × Nat) :=
  [("phone_number", 25),
   ("email_address", 20),
   ("upi_id", 25),
   ("url", 15),
   ("social_media_handle", 15),
   ("payment_handle", 20),
   ("whatsapp_link", 20),
   ("telegram_link", 20),
   ("snapchat_link", 20),
   ("wechat_id", 20),
   ("line_id", 20),
   ("meeting_link", 10),
   ("meeting_code", 15),
   ("calendar_link", 10),
   ("letter_spelling", 18)]

/-- `self.SEVERITY_WEIGHTS.get(kind, 10)` (pii.py line 1064). -/
def severityWeight (kind : String) : Nat :=
  (SEVERITY_WEIGHTS.lookup kind).getD 10

/-- `ContactModerationSystem._calculate_severity` (pii.py lines 1050-1074).
A violation is a `(kind, matched_text)` pair. -/
def calculate_severity (violations : List (String × String)) (has_intent : Bool) : Nat :=
  if violations = [] then 0
  else
    let score := (violations.map (fun v => severityWeight v.1)).sum
    let score := if has_intent then score + 15 else score
    let score := if violations.length > 1 then score + 10 * (violations.length - 1) else score
    min score 100

/-- `ContactModerationSystem._should_block` (pii.py lines 1076-1120).
Returns `(should_block, confidence_level)`. -/
def should_block (sensitivity : String) (violations : List (String × String))
    (has_intent : Bool) (severity : Nat) : Bool × String :=
  if violations = [] then (false, "low")
  else if sensitivity = "high" then
    (true, if has_intent || severity ≥ 50 then "high" else "medium")
  else if sensitivity = "medium" then
    if violations.any (fun v =>
        v.1 == "phone_number" || v.1 == "email_address" ||
        v.1 == "upi_id" || v.1 == "payment_handle") then (true, "high")
    else if has_intent then (true, "medium")
    else if violations.length ≥ 2 then (true, "medium")
    else (false, "low")
  else
    if violations.any (fun v =>
        v.1 == "phone_number" || v.1 == "email_address" || v.1 == "upi_id")
        && has_intent then (true, "high")
    else if severity ≥ 70 then (true, "medium")
    else (false, "low")

/-- Modelled from the spec (§4.5): the severity formula
`score = Σ weights[kind] + (15 if has_intent) + 10 * max(0, count − 1)`,
capped at 100, written exactly as the specification states it (the
`max(0, count − 1)` is `Nat` truncated subtraction).  Used only to compare
the specification's formula with the code's `calculate_severity`. -/
def severitySpecFormula (violations : List (String × String)) (has_intent : Bool) : Nat :=
  min ((violations.map (fun v => severityWeight v.1)).sum
        + (if has_intent then 15 else 0)
        + 10 * (violations.length - 1)) 100

end ContactModerationSystem

/-! ## String helpers shared by the embedding

Python string/regex primitives used by `TextNormalizer.normalize` and the
digit-counting logic of `PatternDetector`, implemented on `List Char`. -/

/-- `sum(1 for c in s if c.isdigit())` for the ASCII digits `0`-`9` (the only
digit characters produced by the normalizer and appearing in the claims). -/
def digitCount (s : String) : Nat :=
  (s.data.filter Char.isDigit).length

/-- `str.replace(w, d)`: replace all non-overlapping occurrences of `w`,
left to right, continuing the scan after each replacement.  The `fuel`
argument only makes the recursion structural (every step consumes at least
one list element, so with `fuel = s.length` it is never exhausted). -/
def strReplaceAux (w d : List Char) : Nat → List Char → List Char
  | _, [] => []
  | 0, l => l
  | fuel + 1, c :: rest =>
    if w ≠ [] ∧ w.isPrefixOf (c :: rest) then
      d ++ strReplaceAux w d fuel ((c :: rest).drop w.length)
    else
      c :: strReplaceAux w d fuel rest

def strReplace (w d s : String) : String :=
  String.mk (strReplaceAux w.data d.data s.data.length s.data)

/-- Python regex word character (`\w`).  ASCII letters, digits and `_`;
every code point ≥ U+0080 is treated as a word character.  (Python's `\w`
excludes non-ASCII punctuation, but every word-boundary substitution in the
source puts word keys next to ASCII separators or string edges, so the
difference is not observable in the properties proved here.) -/
def isWordChar (c : Char) : Bool :=
  c.isAlphanum || c == '_' || decide (c.toNat ≥ 0x80)

/-- `re.sub(r'\b' + word + r'\b', digit, s)` for a literal `word` that both
starts and ends with a word character (true of every key in the tables):
replace each occurrence of `word` that is preceded and followed by a
non-word character or a string edge.  The scan resumes after each match,
and the boundary on the left of the next candidate is judged against the
last character of the matched source text, exactly as `re.sub` does. -/
def wordSubAux (w d : List Char) : Nat → Option Char → List Char → List Char
  | _, _, [] => []
  | 0, _, l => l
  | fuel + 1, prev, c :: rest =>
    if w ≠ [] ∧ w.isPrefixOf (c :: rest) ∧
        (match prev with | none => true | some p => !isWordChar p) = true ∧
        (match (c :: rest).drop w.length with
         | [] => true | n :: _ => !isWordChar n) = true then
      d ++ wordSubAux w d fuel (some (w.getLastD c)) ((c :: rest).drop w.length)
    else
      c :: wordSubAux w d fuel (some c) rest

def wordSub (w d s : String) : String :=
  String.mk (wordSubAux w.data d.data s.data.length none s.data)

/-- `str.lower()` for the scripts that occur in the normalizer's tables:
ASCII, Cyrillic (А-Я and Ё) and Greek (Α-Ω plus accented capitals up to Ϋ).
Python's `str.lower()` covers further scripts, none of which appear in the
tables or in any claim. -/
def pyLowerChar (c : Char) : Char :=
  if 65 ≤ c.toNat ∧ c.toNat ≤ 90 then Char.ofNat (c.toNat + 32)
  else if 0x410 ≤ c.toNat ∧ c.toNat ≤ 0x42F then Char.ofNat (c.toNat + 0x20)
  else if c.toNat = 0x401 then Char.ofNat 0x451
  else if 0x391 ≤ c.toNat ∧ c.toNat ≤ 0x3AB ∧ c.toNat ≠ 0x3A2 then Char.ofNat (c.toNat + 0x20)
  else c

def pyLower (s : String) : String := String.mk (s.data.map pyLowerChar)

/-- Python `\s` (Unicode whitespace) as used by the obfuscation-character
class. -/
def pyIsSpace (c : Char) : Bool :=
  (9 ≤ c.toNat && c.toNat ≤ 13) || c == ' ' ||
  (0x1C ≤ c.toNat && c.toNat ≤ 0x1F) || c.toNat == 0x85 || c.toNat == 0xA0 ||
  c.toNat == 0x1680 || (0x2000 ≤ c.toNat && c.toNat ≤ 0x200A) ||
  c.toNat == 0x2028 || c.toNat == 0x2029 || c.toNat == 0x202F ||
  c.toNat == 0x205F || c.toNat == 0x3000

namespace TextNormalizer

/-- Punctuation members of `TextNormalizer.OBFUSCATION_CHARS`
(pii.py line 143); whitespace members are covered by `pyIsSpace`. -/
def OBFUSCATION_PUNCT : List Char :=
  ['-', '_', '.', '[', ']', '(', ')', Char.ofNat 0x7B, Char.ofNat 0x7D,
   '*', '#', '!', '@', '$', '%', '^', '&', '+', '=', '|', '\\', '/',
   '<', '>', '~', Char.ofNat 0x60, '\'', '"', ',', ':', ';',
   '×', '·', '•', '–', '—', '…', '﹘', '°', '¤', '†', '‡', '§', '¶',
   '¿', '¡', '※', '【', '】', '「', '」', '『', '』', '〈', '〉', '《', '》']

def isObfuscationChar (c : Char) : Bool :=
  pyIsSpace c || OBFUSCATION_PUNCT.contains c

/-- `re.sub(TextNormalizer.OBFUSCATION_CHARS, '', s)` (pii.py line 258):
delete every character of the obfuscation class. -/
def stripObfuscation (s : String) : String :=
  String.mk (s.data.filter (fun c => !isObfuscationChar c))

/-- `TextNormalizer.ZERO_WIDTH_CHARS` (pii.py lines 146-154). -/
def ZERO_WIDTH_CHARS : List String :=
  ["\u200B", "\u200C", "\u200D", "\u200E", "\u200F", "\u2060", "\uFEFF"]

/-- `TextNormalizer.EMOJI_DIGITS` (pii.py lines 157-160); each key is
`digit, U+FE0F, U+20E3`. -/
def EMOJI_DIGITS : List (String × String) :=
  [("0\uFE0F\u20E3", "0"), ("1\uFE0F\u20E3", "1"), ("2\uFE0F\u20E3", "2"),
   ("3\uFE0F\u20E3", "3"), ("4\uFE0F\u20E3", "4"), ("5\uFE0F\u20E3", "5"),
   ("6\uFE0F\u20E3", "6"), ("7\uFE0F\u20E3", "7"), ("8\uFE0F\u20E3", "8"),
   ("9\uFE0F\u20E3", "9")]

/-- Local `chinese_digits` dict of `normalize` (pii.py lines 210-213). -/
def chinese_digits : List (String × String) :=
  [("零", "0"), ("一", "1"), ("二", "2"), ("三", "3"), ("四", "4"),
   ("五", "5"), ("六", "6"), ("七", "7"), ("八", "8"), ("九", "9"),
   ("壹", "1"), ("贰", "2"), ("叁", "3"), ("肆", "4"), ("伍", "5"),
   ("陆", "6"), ("柒", "7"), ("捌", "8"), ("玖", "9")]

/-- Local `arabic_indic_digits` dict of `normalize` (pii.py lines 218-219). -/
def arabic_indic_digits : List (String × String) :=
  [("٠", "0"), ("١", "1"), ("٢", "2"), ("٣", "3"),
   ("٤", "4"), ("٥", "5"), ("٦", "6"), ("٧", "7"),
   ("٨", "8"), ("٩", "9")]

/-- `TextNormalizer.WORD_NUMBERS` (pii.py lines 64-134) in dict iteration
order: a Python dict literal keeps the position of the first occurrence of
a key, so the later duplicate entries (`f0ur`, `zero`, `tres`, `cinco`,
`seis` — all with unchanged values) are listed once, at their first
position. -/
def WORD_NUMBERS : List (String × String) :=
  [("zero", "0"), ("one", "1"), ("two", "2"), ("three", "3"),
   ("four", "4"), ("five", "5"), ("six", "6"), ("seven", "7"),
   ("eight", "8"), ("nine", "9"),
   ("fvie", "5"), ("ninetye", "9"), ("eght", "8"), ("ninegh", "9"),
   ("sevn", "7"), ("thr33", "3"), ("f0ur", "4"),
   ("i9ht", "8"), ("s3v3n", "7"), ("n1n3", "9"),
   ("3i9ht", "8"),
   ("onee", "1"), ("oen", "1"), ("to", "2"),
   ("thrre", "3"), ("foue", "4"), ("fiev", "5"),
   ("sxi", "6"), ("seveb", "7"), ("eigjt", "8"),
   ("0ne", "1"), ("tw0", "2"), ("7hr33", "3"),
   ("f1ve", "5"), ("s1x", "6"), ("53ven", "7"),
   ("31ght", "8"),
   ("0n3", "1"), ("t\\/\\/0", "2"), ("7hree", "3"),
   ("f1v3", "5"), ("s1x6", "6"),
   ("e1ght", "8"), ("n1ne", "9"),
   ("ноль", "0"), ("нуль", "0"), ("один", "1"), ("два", "2"), ("три", "3"),
   ("четыре", "4"), ("пять", "5"), ("шесть", "6"), ("семь", "7"),
   ("восемь", "8"), ("девять", "9"),
   ("cero", "0"), ("uno", "1"), ("dos", "2"), ("tres", "3"),
   ("cuatro", "4"), ("cinco", "5"), ("seis", "6"), ("siete", "7"),
   ("ocho", "8"), ("nueve", "9"),
   ("零", "0"), ("一", "1"), ("二", "2"), ("三", "3"),
   ("四", "4"), ("五", "5"), ("六", "6"), ("七", "7"),
   ("八", "8"), ("九", "9"),
   ("壹", "1"), ("贰", "2"), ("叁", "3"), ("肆", "4"),
   ("伍", "5"), ("陆", "6"), ("柒", "7"), ("捌", "8"), ("玖", "9"),
   ("ten", "1"), ("eleven", "11"), ("twelve", "12"), ("thirteen", "13"),
   ("fourteen", "14"), ("fifteen", "15"), ("sixteen", "16"), ("seventeen", "17"),
   ("eighteen", "18"), ("nineteen", "19"), ("twenty", "2"), ("thirty", "3"),
   ("forty", "4"), ("fifty", "5"), ("sixty", "6"), ("seventy", "7"),
   ("eighty", "8"), ("ninety", "9"),
   ("zer0", "0"), ("z3r0", "0"),
   ("shunya", "0"), ("ek", "1"), ("do", "2"), ("teen", "3"),
   ("char", "4"), ("paanch", "5"), ("chhah", "6"), ("saat", "7"),
   ("aath", "8"), ("nau", "9"),
   ("um", "1"), ("dois", "2"), ("três", "3"),
   ("quatro", "4"), ("sete", "7"),
   ("oito", "8"), ("nove", "9"),
   ("null", "0"), ("eins", "1"), ("zwei", "2"), ("drei", "3"),
   ("vier", "4"), ("fünf", "5"), ("sechs", "6"), ("sieben", "7"),
   ("acht", "8"), ("neun", "9")]

/-- `TextNormalizer.PHONETIC_NUMBERS` (pii.py lines 137-140). -/
def PHONETIC_NUMBERS : List (String × String) :=
  [("ate", "8"), ("won", "1"), ("too", "2"), ("to", "2"),
   ("for", "4"), ("oh", "0"), ("owe", "0")]

/-- Local `cyrillic_greek_confusables` dict of `normalize`
(pii.py lines 235-253); the duplicate `е` entry keeps its first position. -/
def cyrillic_greek_confusables : List (String × String) :=
  [("о", "o"), ("а", "a"), ("е", "e"), ("с", "c"), ("д", "d"),
   ("и", "i"), ("н", "n"), ("в", "v"), ("т", "t"), ("р", "r"),
   ("ч", "ch"), ("ш", "sh"), ("м", "m"), ("ь", ""),
   ("ο", "o"), ("α", "a")]

/-- `TextNormalizer.normalize` (pii.py lines 180-263).  The only step that
cannot be embedded is the call to `unicodedata.normalize('NFKC', ·)`,
which is taken as the function argument `nfkc`; NFKC is the identity on
ASCII strings, so instantiating `nfkc := id` agrees with the source on
every ASCII input. -/
def normalize (nfkc : String → String) (text : String) : String :=
  if text = "" then ""
  else
    let normalized := ZERO_WIDTH_CHARS.foldl (fun s z => strReplace z "" s) text
    let normalized := nfkc normalized
    let normalized := EMOJI_DIGITS.foldl (fun s p => strReplace p.1 p.2 s) normalized
    let normalized := pyLower normalized
    let normalized := chinese_digits.foldl (fun s p => strReplace p.1 p.2 s) normalized
    let normalized := arabic_indic_digits.foldl (fun s p => strReplace p.1 p.2 s) normalized
    let normalized := WORD_NUMBERS.foldl (fun s p => wordSub p.1 p.2 s) normalized
    let normalized := PHONETIC_NUMBERS.foldl (fun s p => wordSub p.1 p.2 s) normalized
    let normalized := cyrillic_greek_confusables.foldl (fun s p => strReplace p.1 p.2 s) normalized
    stripObfuscation normalized

end TextNormalizer

namespace PatternDetector

/-- The data consulted by `PatternDetector.detect_all_patterns`
(pii.py lines 463-699) for one `(text, normalized_text)` pair, with every
regular-expression search outcome made explicit:

* each `<name>_match` field is the result of the corresponding
  `pattern.search(...)` call (`none` = no match, `some s` = the matched
  substring `match.group()`);
* `has_contact_intent` is `_has_contact_sharing_intent(text)` — the method
  is deterministic, so its several calls within one detection all yield
  this one value;
* `is_false_positive m` is `_is_false_positive_number(m, text,
  normalized_text)` as a function of the matched sequence;
* `mixed_matches` lists the `re.finditer(mixed_pattern, normalized_text)`
  match texts in order, and `word_count m` is the
  `len(re.findall(number-words, m))` count used inside that loop;
* `ssn_context` and `date_context` are the two auxiliary `re.search`
  results on `text.lower()` in the SSN block (lines 664 and 667);
* `zer0_context` is the stripped ±10-character context slice around a
  `zer0`/`z3r0` occurrence (lines 687-697), `none` when the `zer0` search
  fails. -/
structure DetectInputs where
  phone_match : Option String
  has_contact_intent : Bool
  is_false_positive : String → Bool
  phone_context_match : Option String
  mixed_matches : List String
  word_count : String → Nat
  obf_match : Option String
  conf_match : Option String
  leet_match : Option String
  concat_match : Option String
  long_spelled_match : Option String
  email_match_text : Option String
  email_match_norm : Option String
  email_normalized_match : Option String
  email_unicode_match : Option String
  placeholder_email_match : Option String
  url_match_text : Option String
  url_match_norm : Option String
  obf_url_match : Option String
  social_match : Option String
  discord_match : Option String
  upi_match_text : Option String
  upi_match_norm : Option String
  upi_context_match : Option String
  payment_match_text : Option String
  payment_match_norm : Option String
  whatsapp_match_text : Option String
  whatsapp_match_norm : Option String
  telegram_match_text : Option String
  telegram_match_norm : Option String
  meeting_match_text : Option String
  meeting_match_norm : Option String
  calendar_match_text : Option String
  calendar_match_norm : Option String
  snapchat_match_text : Option String
  snapchat_match_norm : Option String
  wechat_match_text : Option String
  wechat_match_norm : Option String
  line_match_text : Option String
  line_match_norm : Option String
  letter_match : Option String
  spelled_email_match : Option String
  meet_code_match : Option String
  extension_match : Option String
  ssn_match : Option String
  ssn_context : Bool
  date_context : Bool
  leet_mixed_match : Option String
  zer0_context : Option String

/-- Primary phone block (pii.py lines 476-490): the `\d{5,15}` search on
the normalized text, with the contact-intent override for runs of at least
10 digits and the false-positive filter otherwise. -/
def phonePrimary (i : DetectInputs) : List (String × String) :=
  match i.phone_match with
  | none => []
  | some matched_number =>
    if i.has_contact_intent && digitCount matched_number ≥ 10 then
      [("phone_number", matched_number)]
    else if !i.is_false_positive matched_number then
      [("phone_number", matched_number)]
    else []

/-- Phone-with-context block (pii.py lines 493-495): fires only when the
primary `\d{5,15}` search found nothing. -/
def phoneContext (i : DetectInputs) : List (String × String) :=
  match i.phone_context_match, i.phone_match with
  | some m, none => [("phone_number", m)]
  | _, _ => []

/-- Loop body of the mixed word-digit block (pii.py lines 498-511): the
first `finditer` match of length at least 5 whose combined digit and
number-word count reaches 4 and which passes the intent/false-positive
gate is reported, then the loop breaks. -/
def firstMixed (i : DetectInputs) : List String → Option String
  | [] => none
  | m :: rest =>
    if m.length ≥ 5 &&
        digitCount m + i.word_count m ≥ 4 &&
        (i.has_contact_intent || !i.is_false_positive m) then some m
    else firstMixed i rest

def phoneMixed (i : DetectInputs) : List (String × String) :=
  match i.phone_match with
  | some _ => []
  | none =>
    match firstMixed i i.mixed_matches with
    | some m => [("phone_number", m)]
    | none => []

/-- Obfuscated-number block (pii.py lines 515-520). -/
def phoneObf (i : DetectInputs) : List (String × String) :=
  match i.phone_match, i.obf_match with
  | none, some m =>
    if i.has_contact_intent || !i.is_false_positive m then [("phone_number", m)] else []
  | _, _ => []

/-- Confusable-letter block (pii.py lines 523-530). -/
def phoneConf (i : DetectInputs) : List (String × String) :=
  match i.phone_match, i.conf_match with
  | none, some m =>
    if i.has_contact_intent || !i.is_false_positive m then [("phone_number", m)] else []
  | _, _ => []

/-- Leet-speak block on the original text (pii.py lines 533-538). -/
def phoneLeet (i : DetectInputs) : List (String × String) :=
  match i.phone_match, i.leet_match with
  | none, some m =>
    if i.has_contact_intent || !i.is_false_positive m then [("phone_number", m)] else []
  | _, _ => []

/-- Concatenated number-word block (pii.py lines 541-545). -/
def phoneConcat (i : DetectInputs) : List (String × String) :=
  match i.phone_match, i.concat_match with
  | none, some m =>
    if i.has_contact_intent || !i.is_false_positive m then [("phone_number", m)] else []
  | _, _ => []

/-- Long spelled number-word block (pii.py lines 548-553). -/
def phoneLongSpelled (i : DetectInputs) : List (String × String) :=
  match i.phone_match, i.long_spelled_match with
  | none, some m =>
    if i.has_contact_intent || !i.is_false_positive m then [("phone_number", m)] else []
  | _, _ => []

/-- Email block (pii.py lines 556-567): the `or`-chain over the five email
patterns, reporting the first that matches. -/
def emailSeg (i : DetectInputs) : List (String × String) :=
  match (((i.email_match_text.orElse fun _ => i.email_match_norm).orElse
            fun _ => i.email_normalized_match).orElse
            fun _ => i.email_unicode_match).orElse
            fun _ => i.placeholder_email_match with
  | some m => [("email_address", m)]
  | none => []

/-- URL block (pii.py lines 570-572). -/
def urlSeg (i : DetectInputs) : List (String × String) :=
  match i.url_match_text.orElse fun _ => i.url_match_norm with
  | some m => [("url", m)]
  | none => []

/-- Obfuscated-URL block (pii.py lines 575-577): suppressed when the plain
URL pattern already matched. -/
def obfUrlSeg (i : DetectInputs) : List (String × String) :=
  match i.obf_url_match, i.url_match_text.orElse fun _ => i.url_match_norm with
  | some m, none => [("url", m)]
  | _, _ => []

/-- Social-media-handle block (pii.py lines 580-582). -/
def socialSeg (i : DetectInputs) : List (String × String) :=
  match i.social_match with
  | some m => [("social_media_handle", m)]
  | none => []

/-- Discord-tag block (pii.py lines 585-587). -/
def discordSeg (i : DetectInputs) : List (String × String) :=
  match i.discord_match with
  | some m => [("discord_tag", m)]
  | none => []

/-- UPI block (pii.py lines 590-592). -/
def upiSeg (i : DetectInputs) : List (String × String) :=
  match i.upi_match_text.orElse fun _ => i.upi_match_norm with
  | some m => [("upi_id", m)]
  | none => []

/-- UPI-with-context block (pii.py lines 595-597): suppressed when the
plain UPI pattern already matched. -/
def upiContextSeg (i : DetectInputs) : List (String × String) :=
  match i.upi_context_match, i.upi_match_text.orElse fun _ => i.upi_match_norm with
  | some m, none => [("upi_id", m)]
  | _, _ => []

/-- Payment-handle block (pii.py lines 600-602). -/
def paymentSeg (i : DetectInputs) : List (String × String) :=
  match i.payment_match_text.orElse fun _ => i.payment_match_norm with
  | some m => [("payment_handle", m)]
  | none => []

/-- WhatsApp block (pii.py lines 605-607). -/
def whatsappSeg (i : DetectInputs) : List (String × String) :=
  match i.whatsapp_match_text.orElse fun _ => i.whatsapp_match_norm with
  | some m => [("whatsapp_link", m)]
  | none => []

/-- Telegram block (pii.py lines 610-612). -/
def telegramSeg (i : DetectInputs) : List (String × String) :=
  match i.telegram_match_text.orElse fun _ => i.telegram_match_norm with
  | some m => [("telegram_link", m)]
  | none => []

/-- Meeting-link block (pii.py lines 615-617). -/
def meetingSeg (i : DetectInputs) : List (String × String) :=
  match i.meeting_match_text.orElse fun _ => i.meeting_match_norm with
  | some m => [("meeting_link", m)]
  | none => []

/-- Calendar-link block (pii.py lines 620-622). -/
def calendarSeg (i : DetectInputs) : List (String × String) :=
  match i.calendar_match_text.orElse fun _ => i.calendar_match_norm with
  | some m => [("calendar_link", m)]
  | none => []

/-- Snapchat block (pii.py lines 625-627). -/
def snapchatSeg (i : DetectInputs) : List (String × String) :=
  match i.snapchat_match_text.orElse fun _ => i.snapchat_match_norm with
  | some m => [("snapchat_link", m)]
  | none => []

/-- WeChat block (pii.py lines 630-632). -/
def wechatSeg (i : DetectInputs) : List (String × String) :=
  match i.wechat_match_text.orElse fun _ => i.wechat_match_norm with
  | some m => [("wechat_id", m)]
  | none => []

/-- LINE block (pii.py lines 635-637). -/
def lineSeg (i : DetectInputs) : List (String × String) :=
  match i.line_match_text.orElse fun _ => i.line_match_norm with
  | some m => [("line_id", m)]
  | none => []

/-- Letter-by-letter spelling block (pii.py lines 640-642). -/
def letterSeg (i : DetectInputs) : List (String × String) :=
  match i.letter_match with
  | some m => [("letter_spelling", m)]
  | none => []

/-- Spelled-out email block (pii.py lines 645-647): note that it is NOT
suppressed by an earlier email match. -/
def spelledEmailSeg (i : DetectInputs) : List (String × String) :=
  match i.spelled_email_match with
  | some m => [("email_address", m)]
  | none => []

/-- Meeting-code block (pii.py lines 650-652). -/
def meetCodeSeg (i : DetectInputs) : List (String × String) :=
  match i.meet_code_match with
  | some m => [("meeting_code", m)]
  | none => []

/-- Extension block (pii.py lines 655-657): note that it is NOT guarded by
`not phone_match`. -/
def extensionSeg (i : DetectInputs) : List (String × String) :=
  match i.extension_match with
  | some m => [("phone_number", m)]
  | none => []

/-- SSN block (pii.py lines 660-671). -/
def ssnSeg (i : DetectInputs) : List (String × String) :=
  match i.ssn_match with
  | none => []
  | some matched_ssn =>
    if i.ssn_context then [("ssn", matched_ssn)]
    else if !i.date_context && digitCount matched_ssn == 9 then [("ssn", matched_ssn)]
    else []

/-- Leet-mixed block (pii.py lines 675-683). -/
def leetMixedSeg (i : DetectInputs) : List (String × String) :=
  match i.leet_mixed_match, i.phone_match with
  | some matched, none =>
    if digitCount matched ≥ 3 && matched.length ≥ 5 &&
        (i.has_contact_intent || !i.is_false_positive matched) then
      [("phone_number", matched)]
    else []
  | _, _ => []

/-- `zer0`/`z3r0` block (pii.py lines 686-697): `zer0_context` is the
stripped context slice; its digit count equals that of the raw slice since
stripping removes only whitespace. -/
def zer0Seg (i : DetectInputs) : List (String × String) :=
  match i.zer0_context, i.phone_match with
  | some context, none =>
    if digitCount context ≥ 3 &&
        (i.has_contact_intent || !i.is_false_positive context) then
      [("phone_number", context)]
    else []
  | _, _ => []

/-- `PatternDetector.detect_all_patterns` (pii.py lines 463-699): the
violation list is assembled by the sequential `violations.append(...)`
calls, i.e. it is the concatenation of the blocks in source order. -/
def detect_all_patterns (i : DetectInputs) : List (String × String) :=
  phonePrimary i ++ phoneContext i ++ phoneMixed i ++ phoneObf i ++
  phoneConf i ++ phoneLeet i ++ phoneConcat i ++ phoneLongSpelled i ++
  emailSeg i ++ urlSeg i ++ obfUrlSeg i ++ socialSeg i ++ discordSeg i ++
  upiSeg i ++ upiContextSeg i ++ paymentSeg i ++ whatsappSeg i ++
  telegramSeg i ++ meetingSeg i ++ calendarSeg i ++ snapchatSeg i ++
  wechatSeg i ++ lineSeg i ++ letterSeg i ++ spelledEmailSeg i ++
  meetCodeSeg i ++ extensionSeg i ++ ssnSeg i ++ leetMixedSeg i ++ zer0Seg i

end PatternDetector

/-! ## RateLimiter

`RateLimiter` (pii.py lines 892-952).  `self.user_violations` is a
`defaultdict(list)`: it is modelled as an insertion-ordered association
list, and — exactly as in CPython — *reading* `self.user_violations[u]`
inserts the key `u` with an empty list when it is absent.  Timestamps are
integers in minutes, and `datetime.now()` is passed explicitly as `now`,
so `now - timedelta(minutes=self.window_minutes)` is
`now - window_minutes`. -/

namespace RateLimiter

/-- `dict.get`-style lookup that does NOT create the entry (used only to
state properties; the code itself always goes through `dictGetDefault`). -/
def dictFind (d : List (String × List Int)) (u : String) : Option (List Int) :=
  d.lookup u

/-- `defaultdict.__getitem__`: return the stored list, inserting the key
with `[]` first when it is absent. -/
def dictGetDefault (d : List (String × List Int)) (u : String) :
    List Int × List (String × List Int) :=
  match d.lookup u with
  | some l => (l, d)
  | none => ([], d ++ [(u, [])])

/-- `self.user_violations[u] = l`: replace the value at the key's existing
position, or append the key (CPython dict assignment order semantics). -/
def dictSet (d : List (String × List Int)) (u : String) (l : List Int) :
    List (String × List Int) :=
  match d with
  | [] => [(u, l)]
  | (k, v) :: rest => if k = u then (k, l) :: rest else (k, v) :: dictSet rest u l

structure State where
  window_minutes : Int
  max_violations : Nat
  user_violations : List (String × List Int)
deriving DecidableEq

/-- `RateLimiter.__init__` (pii.py lines 895-904); the source defaults are
`window_minutes = 60`, `max_violations = 3`. -/
def init (window_minutes : Int) (max_violations : Nat) : State :=
  { window_minutes := window_minutes
    max_violations := max_violations
    user_violations := [] }

/-- `RateLimiter._cleanup_old_violations` (pii.py lines 942-952): read the
user's list (a defaultdict read, creating the entry if needed) and keep
only timestamps strictly newer than `now - window_minutes`. -/
def cleanup_old_violations (st : State) (u : String) (now : Int) : State :=
  let ld := dictGetDefault st.user_violations u
  { st with user_violations :=
      dictSet ld.2 u (ld.1.filter (fun v => v > now - st.window_minutes)) }

/-- `RateLimiter.add_violation` (pii.py lines 906-914): append `now` to the
user's list, then prune. -/
def add_violation (st : State) (u : String) (now : Int) : State :=
  let ld := dictGetDefault st.user_violations u
  cleanup_old_violations
    { st with user_violations := dictSet ld.2 u (ld.1 ++ [now]) } u now

/-- `RateLimiter.get_violation_count` (pii.py lines 929-940): prune, then
return the list length.  Returns the count together with the updated
state. -/
def get_violation_count (st : State) (u : String) (now : Int) : Nat × State :=
  let st1 := cleanup_old_violations st u now
  let ld := dictGetDefault st1.user_violations u
  (ld.1.length, { st1 with user_violations := ld.2 })

/-- `RateLimiter.is_rate_limited` (pii.py lines 916-927): prune, then test
`len(...) >= max_violations`. -/
def is_rate_limited (st : State) (u : String) (now : Int) : Bool × State :=
  let st1 := cleanup_old_violations st u now
  let ld := dictGetDefault st1.user_violations u
  (ld.1.length ≥ st1.max_violations, { st1 with user_violations := ld.2 })

/-- The violation list currently stored for `u` (`[]` when the key is
absent).  Used only to state properties of the rate limiter. -/
def userList (st : State) (u : String) : List Int :=
  (st.user_violations.lookup u).getD []

end RateLimiter

/-! ## ModerationResult and the engine -/

/-- `ModerationResult` (pii.py lines 15-38).  The dynamically-optional
fields are `Option`-typed; `all_violations` is the ordered violation
list. -/
structure ModerationResult where
  is_blocked : Bool
  confidence : String
  violation_type : Option String
  detected_pattern : Option String
  original_text : String
  normalized_text : String
  severity_score : Nat
  all_violations : List (String × String)
deriving DecidableEq

namespace ContactModerationSystem

/-- A constructed `ContactModerationSystem` (pii.py lines 977-987): the
`sensitivity` string is stored unvalidated; the compiled regex state of
`TextNormalizer`, `PatternDetector` and `ContextAnalyzer` is read-only
after construction and is carried as three deterministic functions:

* `nfkc` — `unicodedata.normalize('NFKC', ·)` inside the normalizer;
* `detector_inputs text normalized` — the outcomes of every regex search
  that `PatternDetector.detect_all_patterns` performs on this pair;
* `context_intent` — `ContextAnalyzer.has_contact_intent` on the original
  message. -/
structure System where
  sensitivity : String
  nfkc : String → String
  detector_inputs : String → String → PatternDetector.DetectInputs
  context_intent : String → Bool

/-- `message[:10000]`. -/
def truncate10000 (m : String) : String := String.mk (m.data.take 10000)

/-- Body of `ContactModerationSystem.moderate_message` after the
empty-message check and the length truncation (pii.py lines 1016-1048):
normalize, detect, analyze intent, score, decide, record the rate-limiter
side effect.  The Python truthiness test `if is_blocked and user_id`
treats both `None` and `''` as false. -/
def moderate_core (sys : System) (rl : RateLimiter.State) (now : Int)
    (message : String) (user_id : Option String) :
    ModerationResult × RateLimiter.State :=
  let normalized := TextNormalizer.normalize sys.nfkc message
  let violations := PatternDetector.detect_all_patterns (sys.detector_inputs message normalized)
  let has_intent := sys.context_intent message
  let severity_score := calculate_severity violations has_intent
  let bc := should_block sys.sensitivity violations has_intent severity_score
  let violation_type := violations.head?.map (fun v => v.1)
  let detected_pattern := violations.head?.map (fun v => v.2)
  let rl' := if bc.1 && user_id.getD "" ≠ "" then
      RateLimiter.add_violation rl (user_id.getD "") now
    else rl
  ({ is_blocked := bc.1
     confidence := bc.2
     violation_type := violation_type
     detected_pattern := detected_pattern
     original_text := message
     normalized_text := normalized
     severity_score := severity_score
     all_violations := violations }, rl')

/-- `ContactModerationSystem.moderate_message` (pii.py lines 989-1048).
`message` is `Option String` (`none` = Python `None`): `if not message`
returns the default allow result; otherwise the message is truncated to
10,000 characters and handed to the pipeline body `moderate_core`.
Returns the result together with the updated rate-limiter state. -/
def moderate_message (sys : System) (rl : RateLimiter.State) (now : Int)
    (message : Option String) (user_id : Option String) :
    ModerationResult × RateLimiter.State :=
  if message.getD "" = "" then
    ({ is_blocked := false
       confidence := "low"
       violation_type := none
       detected_pattern := none
       original_text := ""
       normalized_text := ""
       severity_score := 0
       all_violations := [] }, rl)
  else
    moderate_core sys rl now
      (if (message.getD "").length > 10000 then truncate10000 (message.getD "")
       else message.getD "") user_id

end ContactModerationSystem

/-! ## Concrete instances used by counterexamples and witnesses -/

namespace PatternDetector

/-- A `DetectInputs` record in which every regex search failed: this is
what the detector battery produces on, e.g., a plain greeting. -/
def emptyInputs : DetectInputs :=
  { phone_match := none
    has_contact_intent := false
    is_false_positive := fun _ => false
    phone_context_match := none
    mixed_matches := []
    word_count := fun _ => 0
    obf_match := none
    conf_match := none
    leet_match := none
    concat_match := none
    long_spelled_match := none
    email_match_text := none
    email_match_norm := none
    email_normalized_match := none
    email_unicode_match := none
    placeholder_email_match := none
    url_match_text := none
    url_match_norm := none
    obf_url_match := none
    social_match := none
    discord_match := none
    upi_match_text := none
    upi_match_norm := none
    upi_context_match := none
    payment_match_text := none
    payment_match_norm := none
    whatsapp_match_text := none
    whatsapp_match_norm := none
    telegram_match_text := none
    telegram_match_norm := none
    meeting_match_text := none
    meeting_match_norm := none
    calendar_match_text := none
    calendar_match_norm := none
    snapchat_match_text := none
    snapchat_match_norm := none
    wechat_match_text := none
    wechat_match_norm := none
    line_match_text := none
    line_match_norm := none
    letter_match := none
    spelled_email_match := none
    meet_code_match := none
    extension_match := none
    ssn_match := none
    ssn_context := false
    date_context := false
    leet_mixed_match := none
    zer0_context := none }

/-- The detector inputs realized by the message `"ext smith at ext 12345"`
(normalized form `"extsmithatext12345"`), checked against every pattern of
pii.py by hand:

* `phone_pattern` (`\d{5,15}`) matches `"12345"` in the normalized text;
* `_has_contact_sharing_intent` is false (no intent phrase, no colon);
* `_is_false_positive_number(m, ...)`: no safe-context keyword, date,
  time, IP, version, currency, prefixed-ID, card or passport pattern
  occurs in this text, so only the digit-count bounds remain;
* `mixed_pattern` finds the single run `"12345"`;
* `extension_pattern` matches the whole message
  `"ext smith at ext 12345"`;
* the SSN date-context search finds the word `at`;
* every other pattern fails (the text has no `@`, `.`, digit-letter
  mixtures, trigger words, or service names). -/
def extMessageInputs : DetectInputs :=
  { emptyInputs with
    phone_match := some "12345"
    is_false_positive := fun m => digitCount m < 5 || digitCount m > 15
    mixed_matches := ["12345"]
    extension_match := some "ext smith at ext 12345"
    date_context := true }

/-- The detector inputs realized by the message
`"call me at 5 pm a1b2c3d4e5f6g7"` (normalized form
`"callmeat5pma1b2c3d4e5f6g7"`), checked against every pattern by hand:

* `phone_pattern` fails (no 5 consecutive digits);
* `_has_contact_sharing_intent` is true (`call me`, no exclusion phrase);
* `_is_false_positive_number` is constantly true: the safe-context keyword
  `pm` occurs in the original text, which short-circuits the classifier
  before any digit counting;
* `mixed_pattern` finds the eight single-character runs;
* `obfuscated_number_pattern` matches `"callmeat5pma1b2c3d4e5f6"`
  (seven digits interleaved with letters);
* the leet-mixed search `\d[a-z]+\d[a-z]+\d` matches `"5pma1b2"`;
* every other pattern fails. -/
def pmMessageInputs : DetectInputs :=
  { emptyInputs with
    has_contact_intent := true
    is_false_positive := fun _ => true
    mixed_matches := ["5", "1", "2", "3", "4", "5", "6", "7"]
    obf_match := some "callmeat5pma1b2c3d4e5f6"
    leet_mixed_match := some "5pma1b2" }

/-- Inputs with a ten-digit primary phone match, contact intent, and a
false-positive classification (realized e.g. by
`"call me today at 5 pm on 9876543210"`-style messages where a safe
context word and an intent phrase are both present). -/
def intentFpInputs : DetectInputs :=
  { emptyInputs with
    phone_match := some "9876543210"
    has_contact_intent := true
    is_false_positive := fun _ => true }

/-- A synthetic record instantiating the universally quantified
secondary-detector theorems: no primary match, contact intent, a
constantly-true false-positive classifier, and one candidate for each of
the secondary phone branches at once.  (Unlike `extMessageInputs` and
`pmMessageInputs` it is not the trace of one message; it only serves to
discharge hypotheses of theorems that hold for every `DetectInputs`.) -/
def secondaryBypassInputs : DetectInputs :=
  { emptyInputs with
    has_contact_intent := true
    is_false_positive := fun _ => true
    mixed_matches := ["5", "12345"]
    obf_match := some "a1b2c3d4e5f6g7"
    conf_match := some "OOO III OOO"
    leet_match := some "n1n3 3ight s3v3n"
    concat_match := some "ninethreeeightsevensixfivefourtwo"
    long_spelled_match := some "one-two-three-four-five"
    leet_mixed_match := some "5pma1b2"
    zer0_context := some "zer0123" }

end PatternDetector

namespace ContactModerationSystem

/-- A system whose message produces no matches at all (regex outcomes of a
plain message): used to instantiate universally quantified theorems. -/
def plainSystem : System :=
  { sensitivity := "high"
    nfkc := id
    detector_inputs := fun _ _ => PatternDetector.emptyInputs
    context_intent := fun _ => false }

/-- A system facing the message `"call me 9876543210"`: the primary phone
pattern matches the ten-digit run, the intent phrase `call me` is present,
and no false-positive context occurs. -/
def blockingSystem : System :=
  { sensitivity := "high"
    nfkc := id
    detector_inputs := fun _ _ =>
      { PatternDetector.emptyInputs with
        phone_match := some "9876543210"
        has_contact_intent := true
        mixed_matches := ["9876543210"] }
    context_intent := fun _ => true }

end ContactModerationSystem

/-! # Theorems -/

namespace ContactModerationSystem

theorem severityWeight_le_25 (k : String) : severityWeight k ≤ 25 := by
  unfold severityWeight SEVERITY_WEIGHTS
  simp only [List.lookup]
  repeat' split <;> simp_all

theorem calculate_severity_le_100 (v : List (String × String)) (i : Bool) :
    calculate_severity v i ≤ 100 := by
  unfold calculate_severity
  split
  · omega
  · exact Nat.min_le_right _ _

/-- On a single violation without intent, the severity is at most 25. -/
theorem calculate_severity_singleton_le (x : String × String) :
    calculate_severity [x] false ≤ 25 := by
  have h := severityWeight_le_25 x.1
  simp only [calculate_severity]
  norm_num
  omega

end ContactModerationSystem

/-- C1 (counterexample): the claimed formula
`min(Σ weights + (15 if has_intent) + 10·max(0, count−1), 100)` does not
describe `_calculate_severity` on the empty violation list when
`has_intent` is true: the code returns 0 (it returns before the intent
bonus is considered), while the formula yields 15.  The pair
`([], has_intent = true)` is reachable: the message `"call me"` triggers
the intent phrase but no detector. -/
theorem C1_counterexample :
    ContactModerationSystem.calculate_severity [] true ≠
      ContactModerationSystem.severitySpecFormula [] true := by
  decide

/-- C1 (amended): for every NON-EMPTY violation list the severity equals
`min(Σ weights + (15 if has_intent) + 10·max(0, count−1), 100)` with the
§4.5 weight table and default weight 10; the empty list yields 0
regardless of the intent flag; and the score never exceeds 100. -/
theorem C1_severity_formula (v : List (String × String)) (i : Bool) :
    ContactModerationSystem.calculate_severity v i =
      (if v = [] then 0 else ContactModerationSystem.severitySpecFormula v i) ∧
    ContactModerationSystem.calculate_severity v i ≤ 100 := by
  constructor
  · by_cases hv : v = []
    · simp [ContactModerationSystem.calculate_severity, hv]
    · have hlen : 1 ≤ v.length := List.length_pos.mpr hv
      simp only [ContactModerationSystem.calculate_severity,
        ContactModerationSystem.severitySpecFormula, if_neg hv]
      congr 1
      split <;> split <;> omega
  · exact ContactModerationSystem.calculate_severity_le_100 v i

set_option maxRecDepth 100000 in
/-- C5 (counterexample): normalization is not idempotent.  On the ASCII
message `"t w o"` (where NFKC is the identity, so `nfkc := id` agrees with
the source), the first pass only strips the spaces, producing `"two"`,
and a second pass then rewrites the word to `"2"`. -/
theorem C5_counterexample :
    TextNormalizer.normalize id (TextNormalizer.normalize id "t w o") ≠
      TextNormalizer.normalize id "t w o" := by
  decide

/-- C5 (amended): normalization is NOT idempotent — stripping the
obfuscation separators can merge spelled-out letters into a number word
that only a second pass replaces (`normalize "t w o" = "two"` but
`normalize "two" = "2"`).  The final obfuscation-stripping step on its own
is idempotent. -/
theorem C5_strip_idempotent (s : String) :
    TextNormalizer.stripObfuscation (TextNormalizer.stripObfuscation s) =
      TextNormalizer.stripObfuscation s := by
  unfold TextNormalizer.stripObfuscation
  simp [List.filter_filter]

namespace ContactModerationSystem

/-- A violation of one of the three low-sensitivity high-risk kinds is
also one of the four medium-sensitivity high-risk kinds. -/
theorem any_high_risk3_imp_any_high_risk4 (v : List (String × String))
    (h : v.any (fun v =>
        v.1 == "phone_number" || v.1 == "email_address" || v.1 == "upi_id") = true) :
    v.any (fun v =>
        v.1 == "phone_number" || v.1 == "email_address" ||
        v.1 == "upi_id" || v.1 == "payment_handle") = true := by
  simp only [List.any_eq_true] at h ⊢
  obtain ⟨x, hx, hfx⟩ := h
  exact ⟨x, hx, by rw [hfx]; rfl⟩

/-- A blocked verdict (at any sensitivity) requires a non-empty violation
list: the decision procedure returns `(False, 'low')` immediately on an
empty list. -/
theorem should_block_nonempty (s : String) (v : List (String × String))
    (i : Bool) (sev : Nat) (h : (should_block s v i sev).1 = true) : v ≠ [] := by
  intro hv
  rw [hv] at h
  simp [should_block] at h

/-- High sensitivity blocks whenever the violation list is non-empty. -/
theorem should_block_high_of_nonempty (v : List (String × String)) (i : Bool)
    (sev : Nat) (hv : v ≠ []) : (should_block "high" v i sev).1 = true := by
  unfold should_block
  rw [if_neg hv, if_pos rfl]

/-- If the low-sensitivity rules block (on the severity computed by the
engine), so do the medium-sensitivity rules. -/
theorem should_block_medium_of_low (v : List (String × String)) (i : Bool)
    (h : (should_block "low" v i (calculate_severity v i)).1 = true) :
    (should_block "medium" v i (calculate_severity v i)).1 = true := by
  have hv : v ≠ [] := should_block_nonempty _ _ _ _ h
  unfold should_block at h ⊢
  rw [if_neg hv] at h ⊢
  rw [if_neg (show ¬("low" : String) = "high" by decide),
      if_neg (show ¬("low" : String) = "medium" by decide)] at h
  rw [if_neg (show ¬("medium" : String) = "high" by decide), if_pos rfl]
  by_cases h3 : (v.any (fun v =>
      v.1 == "phone_number" || v.1 == "email_address" || v.1 == "upi_id") && i) = true
  · have h4 := any_high_risk3_imp_any_high_risk4 v (by
      rcases Bool.and_eq_true_iff.mp h3 with ⟨ha, _⟩
      exact ha)
    rw [if_pos h4]
  · rw [if_neg h3] at h
    by_cases h70 : calculate_severity v i ≥ 70
    · by_cases h4 : v.any (fun v =>
          v.1 == "phone_number" || v.1 == "email_address" ||
          v.1 == "upi_id" || v.1 == "payment_handle") = true
      · rw [if_pos h4]
      · rw [if_neg h4]
        cases hi : i with
        | true => rw [if_pos rfl]
        | false =>
          rw [hi] at h70
          have hlen2 : v.length ≥ 2 := by
            by_contra hlt
            push_neg at hlt
            have h1 : v.length = 1 := by
              have := List.length_pos.mpr hv
              omega
            obtain ⟨x, hx⟩ := List.length_eq_one.mp h1
            rw [hx] at h70
            have := calculate_severity_singleton_le x
            omega
          rw [if_neg (by simp : ¬(false : Bool) = true), if_pos hlen2]
    · rw [if_neg h70] at h
      simp at h

end ContactModerationSystem

namespace ContactModerationSystem

/-- The block decision of the pipeline body is the decision procedure
applied at the engine's own severity (immediate from the definition). -/
theorem moderate_core_is_blocked (sys : System) (rl : RateLimiter.State)
    (now : Int) (m : String) (uid : Option String) :
    (moderate_core sys rl now m uid).1.is_blocked =
      (should_block sys.sensitivity
        (PatternDetector.detect_all_patterns
          (sys.detector_inputs m (TextNormalizer.normalize sys.nfkc m)))
        (sys.context_intent m)
        (calculate_severity
          (PatternDetector.detect_all_patterns
            (sys.detector_inputs m (TextNormalizer.normalize sys.nfkc m)))
          (sys.context_intent m))).1 := by
  simp only [moderate_core]

end ContactModerationSystem

/-- C2: blocking is monotone in sensitivity.  Three engines sharing the
same compiled patterns (`nf`, `di`, `ci`) and differing only in their
`sensitivity` string see the same violations, intent and severity on a
given message, so if the low-sensitivity engine blocks it, the medium-
and high-sensitivity engines block it too. -/
theorem C2_sensitivity_monotone (nf : String → String)
    (di : String → String → PatternDetector.DetectInputs) (ci : String → Bool)
    (rl : RateLimiter.State) (now : Int) (msg uid : Option String)
    (h : (ContactModerationSystem.moderate_message
        ⟨"low", nf, di, ci⟩ rl now msg uid).1.is_blocked = true) :
    (ContactModerationSystem.moderate_message
        ⟨"medium", nf, di, ci⟩ rl now msg uid).1.is_blocked = true ∧
    (ContactModerationSystem.moderate_message
        ⟨"high", nf, di, ci⟩ rl now msg uid).1.is_blocked = true := by
  by_cases hc : msg.getD "" = ""
  · exfalso
    rw [ContactModerationSystem.moderate_message, if_pos hc] at h
    simp at h
  · rw [ContactModerationSystem.moderate_message, if_neg hc,
        ContactModerationSystem.moderate_core_is_blocked] at h
    rw [ContactModerationSystem.moderate_message, if_neg hc,
        ContactModerationSystem.moderate_core_is_blocked,
        ContactModerationSystem.moderate_message, if_neg hc,
        ContactModerationSystem.moderate_core_is_blocked]
    exact ⟨ContactModerationSystem.should_block_medium_of_low _ _ h,
      ContactModerationSystem.should_block_high_of_nonempty _ _ _
        (ContactModerationSystem.should_block_nonempty _ _ _ _ h)⟩

/-- C2 (witness): on the message `"call me 9876543210"` and the regex
outcomes of `blockingSystem`, the low-sensitivity engine blocks, hence so
do the medium- and high-sensitivity engines. -/
theorem C2_witness :
    (ContactModerationSystem.moderate_message
      ⟨"low", ContactModerationSystem.blockingSystem.nfkc,
        ContactModerationSystem.blockingSystem.detector_inputs,
        ContactModerationSystem.blockingSystem.context_intent⟩
      (RateLimiter.init 60 3) 0 (some "call me 9876543210") none).1.is_blocked = true ∧
    ((ContactModerationSystem.moderate_message
      ⟨"medium", ContactModerationSystem.blockingSystem.nfkc,
        ContactModerationSystem.blockingSystem.detector_inputs,
        ContactModerationSystem.blockingSystem.context_intent⟩
      (RateLimiter.init 60 3) 0 (some "call me 9876543210") none).1.is_blocked = true ∧
    (ContactModerationSystem.moderate_message
      ⟨"high", ContactModerationSystem.blockingSystem.nfkc,
        ContactModerationSystem.blockingSystem.detector_inputs,
        ContactModerationSystem.blockingSystem.context_intent⟩
      (RateLimiter.init 60 3) 0 (some "call me 9876543210") none).1.is_blocked = true) :=
  ⟨by decide, C2_sensitivity_monotone ContactModerationSystem.blockingSystem.nfkc
    ContactModerationSystem.blockingSystem.detector_inputs
    ContactModerationSystem.blockingSystem.context_intent
    (RateLimiter.init 60 3) 0 (some "call me 9876543210") none (by decide)⟩

namespace PatternDetector

/-- A list of at most one element, all of a single kind `kd`, contributes
at most `1` to the count of kind `kd` and `0` to any other kind. -/
theorem countP_kind_le {l : List (String × String)} {kd : String}
    (hlen : l.length ≤ 1) (hkind : ∀ v ∈ l, v.1 = kd) (k : String) :
    l.countP (fun v => v.1 == k) ≤ if k = kd then 1 else 0 := by
  split
  · exact le_trans (List.countP_le_length _) hlen
  · next hne =>
    have h0 : l.countP (fun v => v.1 == k) = 0 := by
      rw [List.countP_eq_zero]
      intro v hv
      simp only [hkind v hv, beq_iff_eq]
      exact fun hh => hne hh.symm
    omega

theorem phonePrimary_count (i : DetectInputs) (k : String) :
    (phonePrimary i).countP (fun v => v.1 == k) ≤ if k = "phone_number" then 1 else 0 :=
  countP_kind_le (by unfold phonePrimary; (repeat' split) <;> simp)
    (by unfold phonePrimary; intro v hv; (repeat' split at hv) <;> simp_all) k

theorem phoneContext_count (i : DetectInputs) (k : String) :
    (phoneContext i).countP (fun v => v.1 == k) ≤ if k = "phone_number" then 1 else 0 :=
  countP_kind_le (by unfold phoneContext; (repeat' split) <;> simp)
    (by unfold phoneContext; intro v hv; (repeat' split at hv) <;> simp_all) k

theorem phoneMixed_count (i : DetectInputs) (k : String) :
    (phoneMixed i).countP (fun v => v.1 == k) ≤ if k = "phone_number" then 1 else 0 :=
  countP_kind_le (by unfold phoneMixed; (repeat' split) <;> simp)
    (by unfold phoneMixed; intro v hv; (repeat' split at hv) <;> simp_all) k

theorem phoneObf_count (i : DetectInputs) (k : String) :
    (phoneObf i).countP (fun v => v.1 == k) ≤ if k = "phone_number" then 1 else 0 :=
  countP_kind_le (by unfold phoneObf; (repeat' split) <;> simp)
    (by unfold phoneObf; intro v hv; (repeat' split at hv) <;> simp_all) k

theorem phoneConf_count (i : DetectInputs) (k : String) :
    (phoneConf i).countP (fun v => v.1 == k) ≤ if k = "phone_number" then 1 else 0 :=
  countP_kind_le (by unfold phoneConf; (repeat' split) <;> simp)
    (by unfold phoneConf; intro v hv; (repeat' split at hv) <;> simp_all) k

theorem phoneLeet_count (i : DetectInputs) (k : String) :
    (phoneLeet i).countP (fun v => v.1 == k) ≤ if k = "phone_number" then 1 else 0 :=
  countP_kind_le (by unfold phoneLeet; (repeat' split) <;> simp)
    (by unfold phoneLeet; intro v hv; (repeat' split at hv) <;> simp_all) k

theorem phoneConcat_count (i : DetectInputs) (k : String) :
    (phoneConcat i).countP (fun v => v.1 == k) ≤ if k = "phone_number" then 1 else 0 :=
  countP_kind_le (by unfold phoneConcat; (repeat' split) <;> simp)
    (by unfold phoneConcat; intro v hv; (repeat' split at hv) <;> simp_all) k

theorem phoneLongSpelled_count (i : DetectInputs) (k : String) :
    (phoneLongSpelled i).countP (fun v => v.1 == k) ≤ if k = "phone_number" then 1 else 0 :=
  countP_kind_le (by unfold phoneLongSpelled; (repeat' split) <;> simp)
    (by unfold phoneLongSpelled; intro v hv; (repeat' split at hv) <;> simp_all) k

theorem emailSeg_count (i : DetectInputs) (k : String) :
    (emailSeg i).countP (fun v => v.1 == k) ≤ if k = "email_address" then 1 else 0 :=
  countP_kind_le (by unfold emailSeg; (repeat' split) <;> simp)
    (by unfold emailSeg; intro v hv; (repeat' split at hv) <;> simp_all) k

theorem socialSeg_count (i : DetectInputs) (k : String) :
    (socialSeg i).countP (fun v => v.1 == k) ≤ if k = "social_media_handle" then 1 else 0 :=
  countP_kind_le (by unfold socialSeg; (repeat' split) <;> simp)
    (by unfold socialSeg; intro v hv; (repeat' split at hv) <;> simp_all) k

theorem discordSeg_count (i : DetectInputs) (k : String) :
    (discordSeg i).countP (fun v => v.1 == k) ≤ if k = "discord_tag" then 1 else 0 :=
  countP_kind_le (by unfold discordSeg; (repeat' split) <;> simp)
    (by unfold discordSeg; intro v hv; (repeat' split at hv) <;> simp_all) k

theorem paymentSeg_count (i : DetectInputs) (k : String) :
    (paymentSeg i).countP (fun v => v.1 == k) ≤ if k = "payment_handle" then 1 else 0 :=
  countP_kind_le (by unfold paymentSeg; (repeat' split) <;> simp)
    (by unfold paymentSeg; intro v hv; (repeat' split at hv) <;> simp_all) k

theorem whatsappSeg_count (i : DetectInputs) (k : String) :
    (whatsappSeg i).countP (fun v => v.1 == k) ≤ if k = "whatsapp_link" then 1 else 0 :=
  countP_kind_le (by unfold whatsappSeg; (repeat' split) <;> simp)
    (by unfold whatsappSeg; intro v hv; (repeat' split at hv) <;> simp_all) k

theorem telegramSeg_count (i : DetectInputs) (k : String) :
    (telegramSeg i).countP (fun v => v.1 == k) ≤ if k = "telegram_link" then 1 else 0 :=
  countP_kind_le (by unfold telegramSeg; (repeat' split) <;> simp)
    (by unfold telegramSeg; intro v hv; (repeat' split at hv) <;> simp_all) k

theorem meetingSeg_count (i : DetectInputs) (k : String) :
    (meetingSeg i).countP (fun v => v.1 == k) ≤ if k = "meeting_link" then 1 else 0 :=
  countP_kind_le (by unfold meetingSeg; (repeat' split) <;> simp)
    (by unfold meetingSeg; intro v hv; (repeat' split at hv) <;> simp_all) k

theorem calendarSeg_count (i : DetectInputs) (k : String) :
    (calendarSeg i).countP (fun v => v.1 == k) ≤ if k = "calendar_link" then 1 else 0 :=
  countP_kind_le (by unfold calendarSeg; (repeat' split) <;> simp)
    (by unfold calendarSeg; intro v hv; (repeat' split at hv) <;> simp_all) k

theorem snapchatSeg_count (i : DetectInputs) (k : String) :
    (snapchatSeg i).countP (fun v => v.1 == k) ≤ if k = "snapchat_link" then 1 else 0 :=
  countP_kind_le (by unfold snapchatSeg; (repeat' split) <;> simp)
    (by unfold snapchatSeg; intro v hv; (repeat' split at hv) <;> simp_all) k

theorem wechatSeg_count (i : DetectInputs) (k : String) :
    (wechatSeg i).countP (fun v => v.1 == k) ≤ if k = "wechat_id" then 1 else 0 :=
  countP_kind_le (by unfold wechatSeg; (repeat' split) <;> simp)
    (by unfold wechatSeg; intro v hv; (repeat' split at hv) <;> simp_all) k

theorem lineSeg_count (i : DetectInputs) (k : String) :
    (lineSeg i).countP (fun v => v.1 == k) ≤ if k = "line_id" then 1 else 0 :=
  countP_kind_le (by unfold lineSeg; (repeat' split) <;> simp)
    (by unfold lineSeg; intro v hv; (repeat' split at hv) <;> simp_all) k

theorem letterSeg_count (i : DetectInputs) (k : String) :
    (letterSeg i).countP (fun v => v.1 == k) ≤ if k = "letter_spelling" then 1 else 0 :=
  countP_kind_le (by unfold letterSeg; (repeat' split) <;> simp)
    (by unfold letterSeg; intro v hv; (repeat' split at hv) <;> simp_all) k

theorem spelledEmailSeg_count (i : DetectInputs) (k : String) :
    (spelledEmailSeg i).countP (fun v => v.1 == k) ≤ if k = "email_address" then 1 else 0 :=
  countP_kind_le (by unfold spelledEmailSeg; (repeat' split) <;> simp)
    (by unfold spelledEmailSeg; intro v hv; (repeat' split at hv) <;> simp_all) k

theorem meetCodeSeg_count (i : DetectInputs) (k : String) :
    (meetCodeSeg i).countP (fun v => v.1 == k) ≤ if k = "meeting_code" then 1 else 0 :=
  countP_kind_le (by unfold meetCodeSeg; (repeat' split) <;> simp)
    (by unfold meetCodeSeg; intro v hv; (repeat' split at hv) <;> simp_all) k

theorem extensionSeg_count (i : DetectInputs) (k : String) :
    (extensionSeg i).countP (fun v => v.1 == k) ≤ if k = "phone_number" then 1 else 0 :=
  countP_kind_le (by unfold extensionSeg; (repeat' split) <;> simp)
    (by unfold extensionSeg; intro v hv; (repeat' split at hv) <;> simp_all) k

theorem ssnSeg_count (i : DetectInputs) (k : String) :
    (ssnSeg i).countP (fun v => v.1 == k) ≤ if k = "ssn" then 1 else 0 :=
  countP_kind_le (by unfold ssnSeg; (repeat' split) <;> simp)
    (by unfold ssnSeg; intro v hv; (repeat' split at hv) <;> simp_all) k

theorem leetMixedSeg_count (i : DetectInputs) (k : String) :
    (leetMixedSeg i).countP (fun v => v.1 == k) ≤ if k = "phone_number" then 1 else 0 :=
  countP_kind_le (by unfold leetMixedSeg; (repeat' split) <;> simp)
    (by unfold leetMixedSeg; intro v hv; (repeat' split at hv) <;> simp_all) k

theorem zer0Seg_count (i : DetectInputs) (k : String) :
    (zer0Seg i).countP (fun v => v.1 == k) ≤ if k = "phone_number" then 1 else 0 :=
  countP_kind_le (by unfold zer0Seg; (repeat' split) <;> simp)
    (by unfold zer0Seg; intro v hv; (repeat' split at hv) <;> simp_all) k

/-- The two URL blocks together report at most one `url` violation: the
obfuscated block is suppressed when the plain pattern matched. -/
theorem urlSegs_count (i : DetectInputs) (k : String) :
    (urlSeg i).countP (fun v => v.1 == k) + (obfUrlSeg i).countP (fun v => v.1 == k) ≤
      if k = "url" then 1 else 0 := by
  unfold urlSeg obfUrlSeg
  rcases hu : i.url_match_text.orElse (fun _ => i.url_match_norm) with _ | m <;>
    rcases ho : i.obf_url_match with _ | m2 <;>
      simp only [List.countP_nil, Nat.add_zero, Nat.zero_add]
  · split <;> omega
  · exact @countP_kind_le [("url", m2)] "url" (by simp) (by simp) k
  · exact @countP_kind_le [("url", m)] "url" (by simp) (by simp) k
  · exact @countP_kind_le [("url", m)] "url" (by simp) (by simp) k

/-- The two UPI blocks together report at most one `upi_id` violation. -/
theorem upiSegs_count (i : DetectInputs) (k : String) :
    (upiSeg i).countP (fun v => v.1 == k) + (upiContextSeg i).countP (fun v => v.1 == k) ≤
      if k = "upi_id" then 1 else 0 := by
  unfold upiSeg upiContextSeg
  rcases hu : i.upi_match_text.orElse (fun _ => i.upi_match_norm) with _ | m <;>
    rcases ho : i.upi_context_match with _ | m2 <;>
      simp only [List.countP_nil, Nat.add_zero, Nat.zero_add]
  · split <;> omega
  · exact @countP_kind_le [("upi_id", m2)] "upi_id" (by simp) (by simp) k
  · exact @countP_kind_le [("upi_id", m)] "upi_id" (by simp) (by simp) k
  · exact @countP_kind_le [("upi_id", m)] "upi_id" (by simp) (by simp) k

theorem phoneContext_of_some (i : DetectInputs) (m : String)
    (h : i.phone_match = some m) : phoneContext i = [] := by
  unfold phoneContext
  rw [h]
  cases i.phone_context_match <;> rfl

theorem phoneMixed_of_some (i : DetectInputs) (m : String)
    (h : i.phone_match = some m) : phoneMixed i = [] := by
  unfold phoneMixed
  rw [h]

theorem phoneObf_of_some (i : DetectInputs) (m : String)
    (h : i.phone_match = some m) : phoneObf i = [] := by
  unfold phoneObf
  rw [h]

theorem phoneConf_of_some (i : DetectInputs) (m : String)
    (h : i.phone_match = some m) : phoneConf i = [] := by
  unfold phoneConf
  rw [h]

theorem phoneLeet_of_some (i : DetectInputs) (m : String)
    (h : i.phone_match = some m) : phoneLeet i = [] := by
  unfold phoneLeet
  rw [h]

theorem phoneConcat_of_some (i : DetectInputs) (m : String)
    (h : i.phone_match = some m) : phoneConcat i = [] := by
  unfold phoneConcat
  rw [h]

theorem phoneLongSpelled_of_some (i : DetectInputs) (m : String)
    (h : i.phone_match = some m) : phoneLongSpelled i = [] := by
  unfold phoneLongSpelled
  rw [h]

theorem leetMixedSeg_of_some (i : DetectInputs) (m : String)
    (h : i.phone_match = some m) : leetMixedSeg i = [] := by
  unfold leetMixedSeg
  rw [h]
  cases i.leet_mixed_match <;> rfl

theorem zer0Seg_of_some (i : DetectInputs) (m : String)
    (h : i.phone_match = some m) : zer0Seg i = [] := by
  unfold zer0Seg
  rw [h]
  cases i.zer0_context <;> rfl

/-- At most one indicator among the fifteen pairwise-distinct
non-phone, non-email violation kinds can be active. -/
theorem kind_indicator_sum (k : String) :
    (if k = "url" then 1 else 0) + (if k = "social_media_handle" then 1 else 0) +
    (if k = "discord_tag" then 1 else 0) + (if k = "upi_id" then 1 else 0) +
    (if k = "payment_handle" then 1 else 0) + (if k = "whatsapp_link" then 1 else 0) +
    (if k = "telegram_link" then 1 else 0) + (if k = "meeting_link" then 1 else 0) +
    (if k = "calendar_link" then 1 else 0) + (if k = "snapchat_link" then 1 else 0) +
    (if k = "wechat_id" then 1 else 0) + (if k = "line_id" then 1 else 0) +
    (if k = "letter_spelling" then 1 else 0) + (if k = "meeting_code" then 1 else 0) +
    (if k = "ssn" then 1 else 0) ≤ 1 := by
  by_cases h1 : k = "url"
  · subst h1; decide
  by_cases h2 : k = "social_media_handle"
  · subst h2; decide
  by_cases h3 : k = "discord_tag"
  · subst h3; decide
  by_cases h4 : k = "upi_id"
  · subst h4; decide
  by_cases h5 : k = "payment_handle"
  · subst h5; decide
  by_cases h6 : k = "whatsapp_link"
  · subst h6; decide
  by_cases h7 : k = "telegram_link"
  · subst h7; decide
  by_cases h8 : k = "meeting_link"
  · subst h8; decide
  by_cases h9 : k = "calendar_link"
  · subst h9; decide
  by_cases h10 : k = "snapchat_link"
  · subst h10; decide
  by_cases h11 : k = "wechat_id"
  · subst h11; decide
  by_cases h12 : k = "line_id"
  · subst h12; decide
  by_cases h13 : k = "letter_spelling"
  · subst h13; decide
  by_cases h14 : k = "meeting_code"
  · subst h14; decide
  by_cases h15 : k = "ssn"
  · subst h15; decide
  simp [h1, h2, h3, h4, h5, h6, h7, h8, h9, h10, h11, h12, h13, h14, h15]

end PatternDetector

/-- C3 (counterexample): the detector can emit TWO `phone_number`
violations for one message.  On `"ext smith at ext 12345"` (regex
outcomes `extMessageInputs`, traced in that definition's comment), the
primary `\d{5,15}` pattern reports `"12345"`, and the extension pattern —
which is NOT guarded by `not phone_match` — reports the whole message
again as a second `phone_number` violation. -/
theorem C3_counterexample :
    ¬ (PatternDetector.detect_all_patterns PatternDetector.extMessageInputs).countP
        (fun v => v.1 == "phone_number") ≤ 1 := by
  decide

/-- C3 (amended): every kind other than `phone_number` and
`email_address` contributes at most one violation per message;
`email_address` contributes at most two (the base email chain plus the
unsuppressed spelled-out detector); and when the primary digit-run phone
detector matches it suppresses all other phone detectors EXCEPT the
extension detector, so `phone_number` then contributes at most two. -/
theorem C3_kind_multiplicity (i : PatternDetector.DetectInputs) (k : String) :
    (k ≠ "phone_number" → k ≠ "email_address" →
      (PatternDetector.detect_all_patterns i).countP (fun v => v.1 == k) ≤ 1) ∧
    (PatternDetector.detect_all_patterns i).countP (fun v => v.1 == "email_address") ≤ 2 ∧
    (i.phone_match.isSome = true →
      (PatternDetector.detect_all_patterns i).countP (fun v => v.1 == "phone_number") ≤ 2) := by
  refine ⟨fun hk1 hk2 => ?_, ?_, fun hsome => ?_⟩
  · simp only [PatternDetector.detect_all_patterns, List.countP_append]
    have h01 := PatternDetector.phonePrimary_count i k
    have h02 := PatternDetector.phoneContext_count i k
    have h03 := PatternDetector.phoneMixed_count i k
    have h04 := PatternDetector.phoneObf_count i k
    have h05 := PatternDetector.phoneConf_count i k
    have h06 := PatternDetector.phoneLeet_count i k
    have h07 := PatternDetector.phoneConcat_count i k
    have h08 := PatternDetector.phoneLongSpelled_count i k
    have h09 := PatternDetector.emailSeg_count i k
    have hurl := PatternDetector.urlSegs_count i k
    have h12 := PatternDetector.socialSeg_count i k
    have h13 := PatternDetector.discordSeg_count i k
    have hupi := PatternDetector.upiSegs_count i k
    have h16 := PatternDetector.paymentSeg_count i k
    have h17 := PatternDetector.whatsappSeg_count i k
    have h18 := PatternDetector.telegramSeg_count i k
    have h19 := PatternDetector.meetingSeg_count i k
    have h20 := PatternDetector.calendarSeg_count i k
    have h21 := PatternDetector.snapchatSeg_count i k
    have h22 := PatternDetector.wechatSeg_count i k
    have h23 := PatternDetector.lineSeg_count i k
    have h24 := PatternDetector.letterSeg_count i k
    have h25 := PatternDetector.spelledEmailSeg_count i k
    have h26 := PatternDetector.meetCodeSeg_count i k
    have h27 := PatternDetector.extensionSeg_count i k
    have h28 := PatternDetector.ssnSeg_count i k
    have h29 := PatternDetector.leetMixedSeg_count i k
    have h30 := PatternDetector.zer0Seg_count i k
    rw [if_neg hk1] at h01 h02 h03 h04 h05 h06 h07 h08 h27 h29 h30
    rw [if_neg hk2] at h09 h25
    have hind := PatternDetector.kind_indicator_sum k
    omega
  · simp only [PatternDetector.detect_all_patterns, List.countP_append]
    have h01 := PatternDetector.phonePrimary_count i "email_address"
    have h02 := PatternDetector.phoneContext_count i "email_address"
    have h03 := PatternDetector.phoneMixed_count i "email_address"
    have h04 := PatternDetector.phoneObf_count i "email_address"
    have h05 := PatternDetector.phoneConf_count i "email_address"
    have h06 := PatternDetector.phoneLeet_count i "email_address"
    have h07 := PatternDetector.phoneConcat_count i "email_address"
    have h08 := PatternDetector.phoneLongSpelled_count i "email_address"
    have h09 := PatternDetector.emailSeg_count i "email_address"
    have hurl := PatternDetector.urlSegs_count i "email_address"
    have h12 := PatternDetector.socialSeg_count i "email_address"
    have h13 := PatternDetector.discordSeg_count i "email_address"
    have hupi := PatternDetector.upiSegs_count i "email_address"
    have h16 := PatternDetector.paymentSeg_count i "email_address"
    have h17 := PatternDetector.whatsappSeg_count i "email_address"
    have h18 := PatternDetector.telegramSeg_count i "email_address"
    have h19 := PatternDetector.meetingSeg_count i "email_address"
    have h20 := PatternDetector.calendarSeg_count i "email_address"
    have h21 := PatternDetector.snapchatSeg_count i "email_address"
    have h22 := PatternDetector.wechatSeg_count i "email_address"
    have h23 := PatternDetector.lineSeg_count i "email_address"
    have h24 := PatternDetector.letterSeg_count i "email_address"
    have h25 := PatternDetector.spelledEmailSeg_count i "email_address"
    have h26 := PatternDetector.meetCodeSeg_count i "email_address"
    have h27 := PatternDetector.extensionSeg_count i "email_address"
    have h28 := PatternDetector.ssnSeg_count i "email_address"
    have h29 := PatternDetector.leetMixedSeg_count i "email_address"
    have h30 := PatternDetector.zer0Seg_count i "email_address"
    rw [if_pos rfl] at h09 h25
    have z01 : _ ≤ (0 : Nat) := le_trans h01 (by decide)
    have z02 : _ ≤ (0 : Nat) := le_trans h02 (by decide)
    have z03 : _ ≤ (0 : Nat) := le_trans h03 (by decide)
    have z04 : _ ≤ (0 : Nat) := le_trans h04 (by decide)
    have z05 : _ ≤ (0 : Nat) := le_trans h05 (by decide)
    have z06 : _ ≤ (0 : Nat) := le_trans h06 (by decide)
    have z07 : _ ≤ (0 : Nat) := le_trans h07 (by decide)
    have z08 : _ ≤ (0 : Nat) := le_trans h08 (by decide)
    have zurl : _ ≤ (0 : Nat) := le_trans hurl (by decide)
    have z12 : _ ≤ (0 : Nat) := le_trans h12 (by decide)
    have z13 : _ ≤ (0 : Nat) := le_trans h13 (by decide)
    have zupi : _ ≤ (0 : Nat) := le_trans hupi (by decide)
    have z16 : _ ≤ (0 : Nat) := le_trans h16 (by decide)
    have z17 : _ ≤ (0 : Nat) := le_trans h17 (by decide)
    have z18 : _ ≤ (0 : Nat) := le_trans h18 (by decide)
    have z19 : _ ≤ (0 : Nat) := le_trans h19 (by decide)
    have z20 : _ ≤ (0 : Nat) := le_trans h20 (by decide)
    have z21 : _ ≤ (0 : Nat) := le_trans h21 (by decide)
    have z22 : _ ≤ (0 : Nat) := le_trans h22 (by decide)
    have z23 : _ ≤ (0 : Nat) := le_trans h23 (by decide)
    have z24 : _ ≤ (0 : Nat) := le_trans h24 (by decide)
    have z26 : _ ≤ (0 : Nat) := le_trans h26 (by decide)
    have z27 : _ ≤ (0 : Nat) := le_trans h27 (by decide)
    have z28 : _ ≤ (0 : Nat) := le_trans h28 (by decide)
    have z29 : _ ≤ (0 : Nat) := le_trans h29 (by decide)
    have z30 : _ ≤ (0 : Nat) := le_trans h30 (by decide)
    omega
  · obtain ⟨m, hm⟩ := Option.isSome_iff_exists.mp hsome
    simp only [PatternDetector.detect_all_patterns, List.countP_append,
      PatternDetector.phoneContext_of_some i m hm,
      PatternDetector.phoneMixed_of_some i m hm,
      PatternDetector.phoneObf_of_some i m hm,
      PatternDetector.phoneConf_of_some i m hm,
      PatternDetector.phoneLeet_of_some i m hm,
      PatternDetector.phoneConcat_of_some i m hm,
      PatternDetector.phoneLongSpelled_of_some i m hm,
      PatternDetector.leetMixedSeg_of_some i m hm,
      PatternDetector.zer0Seg_of_some i m hm,
      List.countP_nil]
    have h01 := PatternDetector.phonePrimary_count i "phone_number"
    have h09 := PatternDetector.emailSeg_count i "phone_number"
    have hurl := PatternDetector.urlSegs_count i "phone_number"
    have h12 := PatternDetector.socialSeg_count i "phone_number"
    have h13 := PatternDetector.discordSeg_count i "phone_number"
    have hupi := PatternDetector.upiSegs_count i "phone_number"
    have h16 := PatternDetector.paymentSeg_count i "phone_number"
    have h17 := PatternDetector.whatsappSeg_count i "phone_number"
    have h18 := PatternDetector.telegramSeg_count i "phone_number"
    have h19 := PatternDetector.meetingSeg_count i "phone_number"
    have h20 := PatternDetector.calendarSeg_count i "phone_number"
    have h21 := PatternDetector.snapchatSeg_count i "phone_number"
    have h22 := PatternDetector.wechatSeg_count i "phone_number"
    have h23 := PatternDetector.lineSeg_count i "phone_number"
    have h24 := PatternDetector.letterSeg_count i "phone_number"
    have h25 := PatternDetector.spelledEmailSeg_count i "phone_number"
    have h26 := PatternDetector.meetCodeSeg_count i "phone_number"
    have h27 := PatternDetector.extensionSeg_count i "phone_number"
    have h28 := PatternDetector.ssnSeg_count i "phone_number"
    rw [if_pos rfl] at h01 h27
    have z09 : _ ≤ (0 : Nat) := le_trans h09 (by decide)
    have zurl : _ ≤ (0 : Nat) := le_trans hurl (by decide)
    have z12 : _ ≤ (0 : Nat) := le_trans h12 (by decide)
    have z13 : _ ≤ (0 : Nat) := le_trans h13 (by decide)
    have zupi : _ ≤ (0 : Nat) := le_trans hupi (by decide)
    have z16 : _ ≤ (0 : Nat) := le_trans h16 (by decide)
    have z17 : _ ≤ (0 : Nat) := le_trans h17 (by decide)
    have z18 : _ ≤ (0 : Nat) := le_trans h18 (by decide)
    have z19 : _ ≤ (0 : Nat) := le_trans h19 (by decide)
    have z20 : _ ≤ (0 : Nat) := le_trans h20 (by decide)
    have z21 : _ ≤ (0 : Nat) := le_trans h21 (by decide)
    have z22 : _ ≤ (0 : Nat) := le_trans h22 (by decide)
    have z23 : _ ≤ (0 : Nat) := le_trans h23 (by decide)
    have z24 : _ ≤ (0 : Nat) := le_trans h24 (by decide)
    have z25 : _ ≤ (0 : Nat) := le_trans h25 (by decide)
    have z26 : _ ≤ (0 : Nat) := le_trans h26 (by decide)
    have z28 : _ ≤ (0 : Nat) := le_trans h28 (by decide)
    omega

/-- C3 (witness): the bounds of the amended claim instantiated at the
`"ext smith at ext 12345"` inputs and the kind `url`. -/
theorem C3_witness :
    (("url" : String) ≠ "phone_number" ∧ ("url" : String) ≠ "email_address" ∧
      PatternDetector.extMessageInputs.phone_match.isSome = true) ∧
    ((PatternDetector.detect_all_patterns PatternDetector.extMessageInputs).countP
        (fun v => v.1 == "url") ≤ 1 ∧
      (PatternDetector.detect_all_patterns PatternDetector.extMessageInputs).countP
        (fun v => v.1 == "email_address") ≤ 2 ∧
      (PatternDetector.detect_all_patterns PatternDetector.extMessageInputs).countP
        (fun v => v.1 == "phone_number") ≤ 2) :=
  ⟨⟨by decide, by decide, by decide⟩,
    (C3_kind_multiplicity PatternDetector.extMessageInputs "url").1 (by decide) (by decide),
    (C3_kind_multiplicity PatternDetector.extMessageInputs "url").2.1,
    (C3_kind_multiplicity PatternDetector.extMessageInputs "url").2.2 (by decide)⟩

/-- C10: any sensitivity string other than `'high'` and `'medium'`
(including misspelled or arbitrary values, silently accepted at
construction) falls into the `else` branch of `_should_block`, i.e. the
low-sensitivity rules: block exactly when a phone/email/UPI violation is
present together with contact intent (confidence `high`), or when the
engine-computed severity reaches 70 (confidence `medium`); otherwise allow
with confidence `low`. -/
theorem C10_unknown_sensitivity_is_low (s : String)
    (hs1 : s ≠ "high") (hs2 : s ≠ "medium")
    (v : List (String × String)) (i : Bool) :
    ContactModerationSystem.should_block s v i
        (ContactModerationSystem.calculate_severity v i) =
      ContactModerationSystem.should_block "low" v i
        (ContactModerationSystem.calculate_severity v i) ∧
    ((ContactModerationSystem.should_block s v i
        (ContactModerationSystem.calculate_severity v i)).1 = true ↔
      ((v.any (fun x => x.1 == "phone_number" || x.1 == "email_address" ||
          x.1 == "upi_id") = true ∧ i = true) ∨
        ContactModerationSystem.calculate_severity v i ≥ 70)) ∧
    (ContactModerationSystem.should_block s v i
        (ContactModerationSystem.calculate_severity v i)).2 =
      (if v.any (fun x => x.1 == "phone_number" || x.1 == "email_address" ||
            x.1 == "upi_id") && i then "high"
       else if ContactModerationSystem.calculate_severity v i ≥ 70 then "medium"
       else "low") := by
  by_cases hv : v = []
  · subst hv
    refine ⟨by simp [ContactModerationSystem.should_block], ?_, ?_⟩
    · simp [ContactModerationSystem.should_block, ContactModerationSystem.calculate_severity]
    · simp [ContactModerationSystem.should_block, ContactModerationSystem.calculate_severity]
  · have hred : ∀ t : String, t ≠ "high" → t ≠ "medium" →
        ContactModerationSystem.should_block t v i
            (ContactModerationSystem.calculate_severity v i) =
          (if v.any (fun x => x.1 == "phone_number" || x.1 == "email_address" ||
                x.1 == "upi_id") && i then (true, "high")
           else if ContactModerationSystem.calculate_severity v i ≥ 70 then (true, "medium")
           else (false, "low")) := by
      intro t ht1 ht2
      unfold ContactModerationSystem.should_block
      rw [if_neg hv, if_neg ht1, if_neg ht2]
    rw [hred s hs1 hs2, hred "low" (by decide) (by decide)]
    refine ⟨rfl, ?_, ?_⟩
    · by_cases h3 : (v.any (fun x => x.1 == "phone_number" || x.1 == "email_address" ||
          x.1 == "upi_id") && i) = true
      · simp [h3, Bool.and_eq_true_iff.mp h3]
      · rw [if_neg h3]
        by_cases h70 : ContactModerationSystem.calculate_severity v i ≥ 70
        · simp [h70]
        · simp only [if_neg h70]
          simp only [Bool.and_eq_true_iff] at h3
          constructor
          · intro hh
            simp at hh
          · intro hh
            rcases hh with hh | hh
            · exact absurd ⟨hh.1, hh.2⟩ h3
            · exact absurd hh h70
    · by_cases h3 : (v.any (fun x => x.1 == "phone_number" || x.1 == "email_address" ||
          x.1 == "upi_id") && i) = true
      · simp [h3]
      · rw [if_neg h3, if_neg h3]
        by_cases h70 : ContactModerationSystem.calculate_severity v i ≥ 70
        · simp [h70]
        · simp [h70]

/-- C10 (witness): the misspelled sensitivity `"LOW"` is decided by the
low-sensitivity rules. -/
theorem C10_witness :
    ("LOW" : String) ≠ "high" ∧ ("LOW" : String) ≠ "medium" ∧
    ContactModerationSystem.should_block "LOW" [("url", "www.example.com")] false
        (ContactModerationSystem.calculate_severity [("url", "www.example.com")] false) =
      ContactModerationSystem.should_block "low" [("url", "www.example.com")] false
        (ContactModerationSystem.calculate_severity [("url", "www.example.com")] false) :=
  ⟨by decide, by decide,
    (C10_unknown_sensitivity_is_low "LOW" (by decide) (by decide)
      [("url", "www.example.com")] false).1⟩

/-- C7: the moderation result is a pure function of `(message,
sensitivity)` — for a fixed constructed system (fixed sensitivity and
compiled patterns), two calls with the same message return identical
`ModerationResult` values whatever user id is supplied, whatever the
rate limiter's current state is, and whenever they happen; in particular
`normalized_text` depends only on the message. -/
theorem C7_deterministic (sys : ContactModerationSystem.System)
    (rl rl' : RateLimiter.State) (now now' : Int)
    (msg uid uid' : Option String) :
    (ContactModerationSystem.moderate_message sys rl now msg uid).1 =
      (ContactModerationSystem.moderate_message sys rl' now' msg uid').1 := by
  by_cases h : msg.getD "" = "" <;>
    simp [ContactModerationSystem.moderate_message, ContactModerationSystem.moderate_core, h]

/-- C8: a `none` or empty message yields the default allow result at once
(not blocked, low confidence, no violation, empty texts, score 0, empty
list) with no rate-limiter side effect; and a message longer than 10,000
characters is moderated exactly as its first 10,000 characters, whose
prefix becomes `original_text`. -/
theorem C8_preprocessing (sys : ContactModerationSystem.System)
    (rl : RateLimiter.State) (now : Int) (uid : Option String) (m : String) :
    ContactModerationSystem.moderate_message sys rl now none uid =
      ({ is_blocked := false
         confidence := "low"
         violation_type := none
         detected_pattern := none
         original_text := ""
         normalized_text := ""
         severity_score := 0
         all_violations := [] }, rl) ∧
    ContactModerationSystem.moderate_message sys rl now (some "") uid =
      ({ is_blocked := false
         confidence := "low"
         violation_type := none
         detected_pattern := none
         original_text := ""
         normalized_text := ""
         severity_score := 0
         all_violations := [] }, rl) ∧
    (m.length > 10000 →
      ContactModerationSystem.moderate_message sys rl now (some m) uid =
        ContactModerationSystem.moderate_message sys rl now
          (some (ContactModerationSystem.truncate10000 m)) uid ∧
      (ContactModerationSystem.moderate_message sys rl now (some m) uid).1.original_text =
        ContactModerationSystem.truncate10000 m) := by
  refine ⟨by simp [ContactModerationSystem.moderate_message], by simp [ContactModerationSystem.moderate_message], fun h => ?_⟩
  have hm : m ≠ "" := by
    intro hh
    rw [hh] at h
    simp [String.length] at h
  have hlen : (ContactModerationSystem.truncate10000 m).length = 10000 := by
    simp only [ContactModerationSystem.truncate10000, String.length, List.length_take]
    have : m.length = m.data.length := rfl
    omega
  have hne : ContactModerationSystem.truncate10000 m ≠ "" := by
    intro hh
    rw [hh] at hlen
    simp [String.length] at hlen
  constructor
  · simp only [ContactModerationSystem.moderate_message, Option.getD_some]
    rw [if_neg hm, if_neg hne, if_pos h, if_neg (by omega : ¬(ContactModerationSystem.truncate10000 m).length > 10000)]
  · simp only [ContactModerationSystem.moderate_message, Option.getD_some]
    rw [if_neg hm, if_pos h]
    rfl



/-- C8 (witness): a 10,001-character message is moderated exactly as its
first 10,000 characters. -/
theorem C8_preprocessing_witness :
    (String.mk (List.replicate 10001 'a')).length > 10000 ∧
    ContactModerationSystem.moderate_message ContactModerationSystem.plainSystem
        (RateLimiter.init 60 3) 0 (some (String.mk (List.replicate 10001 'a'))) none =
      ContactModerationSystem.moderate_message ContactModerationSystem.plainSystem
        (RateLimiter.init 60 3) 0
        (some (ContactModerationSystem.truncate10000 (String.mk (List.replicate 10001 'a')))) none := by
  have hl : (String.mk (List.replicate 10001 'a')).length > 10000 := by
    have : (String.mk (List.replicate 10001 'a')).length = (List.replicate 10001 'a').length := rfl
    rw [this, List.length_replicate]
    omega
  exact ⟨hl, ((C8_preprocessing ContactModerationSystem.plainSystem
    (RateLimiter.init 60 3) 0 none (String.mk (List.replicate 10001 'a'))).2.2 hl).1⟩

/-- C4 (counterexample): with contact intent, a phone candidate marked as
a false positive and carrying FEWER than 10 digits is still reported by a
secondary phone detector.  On `"call me at 5 pm a1b2c3d4e5f6g7"` (regex
outcomes `pmMessageInputs`): the false-positive classifier is constantly
true because of the safe-context word `pm`, the matched run
`"callmeat5pma1b2c3d4e5f6"` has 7 digits, yet the obfuscated-number block
reports it because intent alone bypasses the filter there. -/
theorem C4_counterexample :
    PatternDetector.pmMessageInputs.has_contact_intent = true ∧
    PatternDetector.pmMessageInputs.is_false_positive "callmeat5pma1b2c3d4e5f6" = true ∧
    digitCount "callmeat5pma1b2c3d4e5f6" < 10 ∧
    ("phone_number", "callmeat5pma1b2c3d4e5f6") ∈
      PatternDetector.detect_all_patterns PatternDetector.pmMessageInputs := by
  decide

namespace PatternDetector

/-- With contact intent, the mixed word-digit loop ignores the
false-positive classifier entirely: its selection reduces to the first
`finditer` match passing the two size gates. -/
theorem firstMixed_intent (i : DetectInputs) (hi : i.has_contact_intent = true)
    (ms : List String) :
    firstMixed i ms =
      ms.find? (fun x =>
        decide (x.length ≥ 5) && decide (digitCount x + i.word_count x ≥ 4)) := by
  induction ms with
  | nil => rfl
  | cons m ms ih =>
    simp only [firstMixed, hi, Bool.true_or, Bool.and_true, List.find?]
    by_cases hc : (decide (m.length ≥ 5) &&
        decide (digitCount m + i.word_count m ≥ 4)) = true
    · simp [hc]
    · simp [hc, ih]

end PatternDetector

/-- C4 (amended): the `≥ 10 digits` gate on the intent override applies
only to the PRIMARY digit-run detector: there, under intent, a candidate
classified as a false positive is reported exactly when its digit run has
at least 10 digits.  In each of the eight secondary phone branches —
mixed, obfuscated, confusable, leet, concatenated, long-spelled,
leet-mixed and zer0 — contact intent alone bypasses the false-positive
filter, which is then never consulted: the mixed loop selects by its two
size gates alone, the option-carried branches report their match
unconditionally, and the leet-mixed and zer0 blocks keep only their own
digit-count gates. -/
theorem C4_fp_bypass (i : PatternDetector.DetectInputs) (m : String) :
    (i.phone_match = some m → i.has_contact_intent = true →
      i.is_false_positive m = true →
      PatternDetector.phonePrimary i =
        (if digitCount m ≥ 10 then [("phone_number", m)] else [])) ∧
    (i.phone_match = none → i.has_contact_intent = true →
      (PatternDetector.firstMixed i i.mixed_matches =
        i.mixed_matches.find? (fun x =>
          decide (x.length ≥ 5) && decide (digitCount x + i.word_count x ≥ 4))) ∧
      (i.obf_match = some m →
        PatternDetector.phoneObf i = [("phone_number", m)]) ∧
      (i.conf_match = some m →
        PatternDetector.phoneConf i = [("phone_number", m)]) ∧
      (i.leet_match = some m →
        PatternDetector.phoneLeet i = [("phone_number", m)]) ∧
      (i.concat_match = some m →
        PatternDetector.phoneConcat i = [("phone_number", m)]) ∧
      (i.long_spelled_match = some m →
        PatternDetector.phoneLongSpelled i = [("phone_number", m)]) ∧
      (i.leet_mixed_match = some m → digitCount m ≥ 3 → m.length ≥ 5 →
        PatternDetector.leetMixedSeg i = [("phone_number", m)]) ∧
      (i.zer0_context = some m → digitCount m ≥ 3 →
        PatternDetector.zer0Seg i = [("phone_number", m)])) := by
  constructor
  · intro hm hi hfp
    unfold PatternDetector.phonePrimary
    rw [hm]
    by_cases h10 : digitCount m ≥ 10 <;> simp [hi, hfp, h10]
  · intro hn hi
    refine ⟨PatternDetector.firstMixed_intent i hi i.mixed_matches,
      fun ho => ?_, fun ho => ?_, fun ho => ?_, fun ho => ?_, fun ho => ?_,
      fun ho h3 h5 => ?_, fun ho h3 => ?_⟩
    · unfold PatternDetector.phoneObf
      rw [hn, ho]
      simp [hi]
    · unfold PatternDetector.phoneConf
      rw [hn, ho]
      simp [hi]
    · unfold PatternDetector.phoneLeet
      rw [hn, ho]
      simp [hi]
    · unfold PatternDetector.phoneConcat
      rw [hn, ho]
      simp [hi]
    · unfold PatternDetector.phoneLongSpelled
      rw [hn, ho]
      simp [hi]
    · unfold PatternDetector.leetMixedSeg
      rw [ho, hn]
      simp [hi, h3, h5]
    · unfold PatternDetector.zer0Seg
      rw [ho, hn]
      simp [hi, h3]

/-- C4 (witness): the primary-detector gate at a ten-digit candidate with
intent and a false-positive classification, and the intent-alone bypass
in each of the eight secondary branches, at `secondaryBypassInputs`
(whose false-positive classifier is constantly true). -/
theorem C4_fp_bypass_witness :
    (PatternDetector.intentFpInputs.phone_match = some "9876543210" ∧
     PatternDetector.intentFpInputs.has_contact_intent = true ∧
     PatternDetector.intentFpInputs.is_false_positive "9876543210" = true ∧
     PatternDetector.phonePrimary PatternDetector.intentFpInputs =
       (if digitCount "9876543210" ≥ 10 then [("phone_number", "9876543210")] else [])) ∧
    (PatternDetector.secondaryBypassInputs.phone_match = none ∧
     PatternDetector.secondaryBypassInputs.has_contact_intent = true ∧
     PatternDetector.secondaryBypassInputs.is_false_positive "OOO III OOO" = true ∧
     digitCount "5pma1b2" ≥ 3 ∧ ("5pma1b2" : String).length ≥ 5 ∧
     digitCount "zer0123" ≥ 3 ∧
     (PatternDetector.firstMixed PatternDetector.secondaryBypassInputs
        PatternDetector.secondaryBypassInputs.mixed_matches =
       PatternDetector.secondaryBypassInputs.mixed_matches.find? (fun x =>
         decide (x.length ≥ 5) &&
         decide (digitCount x + PatternDetector.secondaryBypassInputs.word_count x ≥ 4)) ∧
      PatternDetector.phoneObf PatternDetector.secondaryBypassInputs =
        [("phone_number", "a1b2c3d4e5f6g7")] ∧
      PatternDetector.phoneConf PatternDetector.secondaryBypassInputs =
        [("phone_number", "OOO III OOO")] ∧
      PatternDetector.phoneLeet PatternDetector.secondaryBypassInputs =
        [("phone_number", "n1n3 3ight s3v3n")] ∧
      PatternDetector.phoneConcat PatternDetector.secondaryBypassInputs =
        [("phone_number", "ninethreeeightsevensixfivefourtwo")] ∧
      PatternDetector.phoneLongSpelled PatternDetector.secondaryBypassInputs =
        [("phone_number", "one-two-three-four-five")] ∧
      PatternDetector.leetMixedSeg PatternDetector.secondaryBypassInputs =
        [("phone_number", "5pma1b2")] ∧
      PatternDetector.zer0Seg PatternDetector.secondaryBypassInputs =
        [("phone_number", "zer0123")])) :=
  ⟨⟨rfl, rfl, rfl,
    (C4_fp_bypass PatternDetector.intentFpInputs "9876543210").1 rfl rfl rfl⟩,
   ⟨rfl, rfl, rfl, by decide, by decide, by decide,
    ((C4_fp_bypass PatternDetector.secondaryBypassInputs "").2 rfl rfl).1,
    ((C4_fp_bypass PatternDetector.secondaryBypassInputs
        "a1b2c3d4e5f6g7").2 rfl rfl).2.1 rfl,
    ((C4_fp_bypass PatternDetector.secondaryBypassInputs
        "OOO III OOO").2 rfl rfl).2.2.1 rfl,
    ((C4_fp_bypass PatternDetector.secondaryBypassInputs
        "n1n3 3ight s3v3n").2 rfl rfl).2.2.2.1 rfl,
    ((C4_fp_bypass PatternDetector.secondaryBypassInputs
        "ninethreeeightsevensixfivefourtwo").2 rfl rfl).2.2.2.2.1 rfl,
    ((C4_fp_bypass PatternDetector.secondaryBypassInputs
        "one-two-three-four-five").2 rfl rfl).2.2.2.2.2.1 rfl,
    ((C4_fp_bypass PatternDetector.secondaryBypassInputs
        "5pma1b2").2 rfl rfl).2.2.2.2.2.2.1 rfl (by decide) (by decide),
    ((C4_fp_bypass PatternDetector.secondaryBypassInputs
        "zer0123").2 rfl rfl).2.2.2.2.2.2.2 rfl (by decide)⟩⟩

namespace RateLimiter

theorem lookup_dictSet_self (d : List (String × List Int)) (u : String) (l : List Int) :
    (dictSet d u l).lookup u = some l := by
  induction d with
  | nil => simp [dictSet, List.lookup]
  | cons p rest ih =>
    obtain ⟨pk, pv⟩ := p
    unfold dictSet
    by_cases h : pk = u
    · subst h
      simp [List.lookup]
    · have hbe : (u == pk) = false := beq_eq_false_iff_ne.mpr (Ne.symm h)
      simp [List.lookup, h, hbe, ih]

theorem cleanup_window (st : State) (u : String) (now : Int) :
    (cleanup_old_violations st u now).window_minutes = st.window_minutes := rfl

theorem cleanup_max (st : State) (u : String) (now : Int) :
    (cleanup_old_violations st u now).max_violations = st.max_violations := rfl

theorem add_window (st : State) (u : String) (t : Int) :
    (add_violation st u t).window_minutes = st.window_minutes := rfl

theorem add_max (st : State) (u : String) (t : Int) :
    (add_violation st u t).max_violations = st.max_violations := rfl

theorem userList_cleanup (st : State) (u : String) (now : Int) :
    userList (cleanup_old_violations st u now) u =
      (userList st u).filter (fun v => v > now - st.window_minutes) := by
  unfold userList cleanup_old_violations dictGetDefault
  rcases h : st.user_violations.lookup u with _ | l <;>
    simp [h, lookup_dictSet_self]

theorem userList_add (st : State) (u : String) (t : Int) :
    userList (add_violation st u t) u =
      ((userList st u) ++ [t]).filter (fun v => v > t - st.window_minutes) := by
  unfold add_violation
  rw [userList_cleanup]
  unfold userList dictGetDefault
  rcases h : st.user_violations.lookup u with _ | l <;>
    simp [h, lookup_dictSet_self]

theorem foldl_add_window (u : String) (ts : List Int) (st : State) :
    (ts.foldl (fun s t => add_violation s u t) st).window_minutes = st.window_minutes := by
  induction ts generalizing st with
  | nil => rfl
  | cons t ts ih => simp only [List.foldl_cons]; rw [ih, add_window]

theorem foldl_add_max (u : String) (ts : List Int) (st : State) :
    (ts.foldl (fun s t => add_violation s u t) st).max_violations = st.max_violations := by
  induction ts generalizing st with
  | nil => rfl
  | cons t ts ih => simp only [List.foldl_cons]; rw [ih, add_max]

/-- Adding timestamps that all lie inside the window ending at `now` never
loses any of them to pruning: the stored list accumulates them in order. -/
theorem foldl_add_userList (u : String) (W now : Int) (ts : List Int) :
    ∀ (st : State), st.window_minutes = W →
    (∀ t ∈ ts, now - W < t ∧ t ≤ now) →
    (∀ x ∈ userList st u, now - W < x ∧ x ≤ now) →
    userList (ts.foldl (fun s t => add_violation s u t) st) u = userList st u ++ ts := by
  induction ts with
  | nil =>
    intro st _ _ _
    simp
  | cons t ts ih =>
    intro st hW hts hcur
    simp only [List.foldl_cons]
    have h1 : userList (add_violation st u t) u = userList st u ++ [t] := by
      rw [userList_add]
      apply List.filter_eq_self.mpr
      intro x hx
      have hxb : now - W < x ∧ x ≤ now := by
        rcases List.mem_append.mp hx with hx | hx
        · exact hcur x hx
        · rcases List.mem_singleton.mp hx with rfl
          exact hts x (List.mem_cons_self _ _)
      have ht : t ≤ now := (hts t (List.mem_cons_self _ _)).2
      rw [hW]
      simp only [decide_eq_true_eq]
      omega
    rw [ih (add_violation st u t) (by rw [add_window, hW])
          (fun x hx => hts x (List.mem_cons_of_mem _ hx))
          (by rw [h1]; intro x hx
              rcases List.mem_append.mp hx with hx | hx
              · exact hcur x hx
              · rcases List.mem_singleton.mp hx with rfl
                exact hts x (List.mem_cons_self _ _)),
        h1, List.append_assoc]
    rfl

theorem get_violation_count_fst (st : State) (u : String) (now : Int) :
    (get_violation_count st u now).1 =
      ((userList st u).filter (fun v => v > now - st.window_minutes)).length := by
  have hl : (cleanup_old_violations st u now).user_violations.lookup u =
      some ((userList st u).filter (fun v => v > now - st.window_minutes)) := by
    unfold cleanup_old_violations userList dictGetDefault
    rcases h : st.user_violations.lookup u with _ | l <;>
      simp [h, lookup_dictSet_self]
  simp only [get_violation_count, dictGetDefault]
  rw [hl]

theorem is_rate_limited_fst (st : State) (u : String) (now : Int) :
    (is_rate_limited st u now).1 =
      decide (((userList st u).filter
        (fun v => v > now - st.window_minutes)).length ≥ st.max_violations) := by
  have hl : (cleanup_old_violations st u now).user_violations.lookup u =
      some ((userList st u).filter (fun v => v > now - st.window_minutes)) := by
    unfold cleanup_old_violations userList dictGetDefault
    rcases h : st.user_violations.lookup u with _ | l <;>
      simp [h, lookup_dictSet_self]
  simp only [is_rate_limited, dictGetDefault]
  simp only [hl]
  rfl

end RateLimiter

/-- C6: starting from a fresh rate limiter with window `W` and limit `M`,
after `add_violation(u)` at each time in `ts` — all within the window
ending at the query time `now` — `get_violation_count(u)` returns the
number of calls (when at most `M` were made); when exactly `M` calls were
made, `is_rate_limited(u)` is true; and at a later query time `now2` by
which the whole window has passed, `get_violation_count(u)` returns 0. -/
theorem C6_rate_limiter (W : Int) (M : Nat) (u : String) (ts : List Int)
    (now now2 : Int)
    (hin : ∀ t ∈ ts, now - W < t ∧ t ≤ now)
    (hk : ts.length ≤ M)
    (hpass : ∀ t ∈ ts, t ≤ now2 - W) :
    (RateLimiter.get_violation_count
        (ts.foldl (fun s t => RateLimiter.add_violation s u t) (RateLimiter.init W M))
        u now).1 = ts.length ∧
    (ts.length = M →
      (RateLimiter.is_rate_limited
        (ts.foldl (fun s t => RateLimiter.add_violation s u t) (RateLimiter.init W M))
        u now).1 = true) ∧
    (RateLimiter.get_violation_count
        (ts.foldl (fun s t => RateLimiter.add_violation s u t) (RateLimiter.init W M))
        u now2).1 = 0 := by
  have hfold : RateLimiter.userList
      (ts.foldl (fun s t => RateLimiter.add_violation s u t) (RateLimiter.init W M)) u = ts := by
    have h0 : RateLimiter.userList (RateLimiter.init W M) u = [] := by
      simp [RateLimiter.userList, RateLimiter.init, List.lookup]
    rw [RateLimiter.foldl_add_userList u W now ts (RateLimiter.init W M) rfl hin
      (by rw [h0]; intro x hx; simp at hx), h0]
    rfl
  have hwin : (ts.foldl (fun s t => RateLimiter.add_violation s u t)
      (RateLimiter.init W M)).window_minutes = W :=
    RateLimiter.foldl_add_window u ts _
  have hmax : (ts.foldl (fun s t => RateLimiter.add_violation s u t)
      (RateLimiter.init W M)).max_violations = M :=
    RateLimiter.foldl_add_max u ts _
  refine ⟨?_, fun hM => ?_, ?_⟩
  · rw [RateLimiter.get_violation_count_fst, hfold, hwin,
        List.filter_eq_self.mpr (fun x hx => by
          simp only [decide_eq_true_eq]
          exact (hin x hx).1)]
  · rw [RateLimiter.is_rate_limited_fst, hfold, hwin, hmax,
        List.filter_eq_self.mpr (fun x hx => by
          simp only [decide_eq_true_eq]
          exact (hin x hx).1)]
    simp [hM]
  · rw [RateLimiter.get_violation_count_fst, hfold, hwin]
    rw [List.filter_eq_nil_iff.mpr (fun x hx => by
      simp only [decide_eq_true_eq]
      have := hpass x hx
      omega)]
    rfl

/-- C6 (witness): three violations at minutes 10, 20, 30 inside a
60-minute window queried at minute 30 count as 3 and trip the limit of 3;
queried at minute 90 they have all expired. -/
theorem C6_rate_limiter_witness :
    (∀ t ∈ [(10 : Int), 20, 30], (30 : Int) - 60 < t ∧ t ≤ 30) ∧
    ([(10 : Int), 20, 30].length ≤ 3) ∧
    (∀ t ∈ [(10 : Int), 20, 30], t ≤ (90 : Int) - 60) ∧
    ((RateLimiter.get_violation_count
        ([(10 : Int), 20, 30].foldl (fun s t => RateLimiter.add_violation s "user123" t)
          (RateLimiter.init 60 3)) "user123" 30).1 = [(10 : Int), 20, 30].length ∧
     (RateLimiter.is_rate_limited
        ([(10 : Int), 20, 30].foldl (fun s t => RateLimiter.add_violation s "user123" t)
          (RateLimiter.init 60 3)) "user123" 30).1 = true ∧
     (RateLimiter.get_violation_count
        ([(10 : Int), 20, 30].foldl (fun s t => RateLimiter.add_violation s "user123" t)
          (RateLimiter.init 60 3)) "user123" 90).1 = 0) := by
  have hin : ∀ t ∈ [(10 : Int), 20, 30], (30 : Int) - 60 < t ∧ t ≤ 30 := by decide
  have hk : [(10 : Int), 20, 30].length ≤ 3 := by decide
  have hpass : ∀ t ∈ [(10 : Int), 20, 30], t ≤ (90 : Int) - 60 := by decide
  have h := C6_rate_limiter 60 3 "user123" [(10 : Int), 20, 30] 30 90 hin hk hpass
  exact ⟨hin, hk, hpass, h.1, h.2.1 rfl, h.2.2⟩

namespace RateLimiter

theorem lookup_append_self (d : List (String × List Int)) (u : String) (l : List Int)
    (h : d.lookup u = none) : (d ++ [(u, l)]).lookup u = some l := by
  induction d with
  | nil => simp [List.lookup]
  | cons p rest ih =>
    obtain ⟨pk, pv⟩ := p
    simp only [List.lookup, List.cons_append] at h ⊢
    rcases hbe : (u == pk) with _ | _
    · rw [hbe] at h
      simp only [Bool.false_eq_true, if_false] at h ⊢
      exact ih h
    · rw [hbe] at h
      simp at h

theorem dictSet_append_self (d : List (String × List Int)) (u : String) (l : List Int)
    (h : d.lookup u = none) : dictSet (d ++ [(u, l)]) u l = d ++ [(u, l)] := by
  induction d with
  | nil => simp [dictSet]
  | cons p rest ih =>
    obtain ⟨pk, pv⟩ := p
    simp only [List.lookup] at h
    rcases hbe : (u == pk) with _ | _
    · rw [hbe] at h
      simp only [Bool.false_eq_true, if_false] at h
      have hne : pk ≠ u := by
        intro hh
        subst hh
        simp at hbe
      simp only [List.cons_append, dictSet, if_neg hne, List.append_eq]
      rw [ih h]
    · rw [hbe] at h
      simp at h

end RateLimiter

/-- C9 (counterexample): a read operation does change the rate limiter's
state for an unseen user — `self.user_violations` is a `defaultdict`, so
`get_violation_count("alice")` on a fresh limiter materializes the entry
`"alice" → []`. -/
theorem C9_counterexample :
    (RateLimiter.get_violation_count (RateLimiter.init 60 3) "alice" 0).2 ≠
      RateLimiter.init 60 3 := by
  decide

/-- C9 (amended): for a user `u` with no entry in the mapping, the read
operations `get_violation_count(u)` and `is_rate_limited(u)` CREATE an
empty-list entry for `u` (appended at the end of the dict); the observable
counts are unaffected — the count is 0 and the user is rate limited only
in the degenerate `max_violations = 0` case. -/
theorem C9_reads_create_entry (st : RateLimiter.State) (u : String) (now : Int)
    (h : st.user_violations.lookup u = none) :
    (RateLimiter.get_violation_count st u now).1 = 0 ∧
    (RateLimiter.get_violation_count st u now).2.user_violations =
      st.user_violations ++ [(u, [])] ∧
    (RateLimiter.is_rate_limited st u now).1 = decide (0 ≥ st.max_violations) ∧
    (RateLimiter.is_rate_limited st u now).2.user_violations =
      st.user_violations ++ [(u, [])] := by
  have hcl : (RateLimiter.cleanup_old_violations st u now).user_violations =
      st.user_violations ++ [(u, [])] := by
    unfold RateLimiter.cleanup_old_violations RateLimiter.dictGetDefault
    rw [h]
    simp only [List.filter_nil]
    exact RateLimiter.dictSet_append_self st.user_violations u [] h
  have hlook : (RateLimiter.cleanup_old_violations st u now).user_violations.lookup u =
      some [] := by
    rw [hcl]
    exact RateLimiter.lookup_append_self st.user_violations u [] h
  refine ⟨?_, ?_, ?_, ?_⟩
  · simp only [RateLimiter.get_violation_count, RateLimiter.dictGetDefault]
    simp only [hlook]
    rfl
  · simp only [RateLimiter.get_violation_count, RateLimiter.dictGetDefault]
    simp only [hlook]
    exact hcl
  · simp only [RateLimiter.is_rate_limited, RateLimiter.dictGetDefault]
    simp only [hlook]
    rfl
  · simp only [RateLimiter.is_rate_limited, RateLimiter.dictGetDefault]
    simp only [hlook]
    exact hcl

/-- C9 (witness): the amended claim at a fresh limiter and the unseen user
`"alice"`. -/
theorem C9_reads_create_entry_witness :
    (RateLimiter.init 60 3).user_violations.lookup "alice" = none ∧
    ((RateLimiter.get_violation_count (RateLimiter.init 60 3) "alice" 0).1 = 0 ∧
     (RateLimiter.get_violation_count (RateLimiter.init 60 3) "alice" 0).2.user_violations =
       (RateLimiter.init 60 3).user_violations ++ [("alice", [])]) :=
  ⟨by decide,
    (C9_reads_create_entry (RateLimiter.init 60 3) "alice" 0 (by decide)).1,
    (C9_reads_create_entry (RateLimiter.init 60 3) "alice" 0 (by decide)).2.1⟩
